import Mathlib

/-!
# GPA_2 function objects

A shallow embedding of `GPA_2/include/CGAL/GPA_2/GPA_2_functors.h` (namespace
`GPA_2_Functors`) together with the properties its specification states.

The function objects of that header are thin: every geometric primitive they call
(point comparison, the kernel's intersection and multiplicity primitives, `trim`,
`new_endpoints_opposite`, the methods of `Arc_2`, ...) lives in collaborators that the
header only uses.  Those primitives are the fields of the structures `GAPS`,
`Curve_kernel_2` and `Arc_2_methods` below; the function objects are Lean functions
over them.  An output iterator is the list of objects written so far; `*oi++ = x`
appends `x`.
-/

namespace GPA_2_Functors

/-! ## Enumerations and the `Object` wrapper -/

/-- `CGAL::Comparison_result`. -/
inductive Comparison_result where
  | SMALLER
  | EQUAL
  | LARGER
  deriving DecidableEq

/-- `CGAL::Curve_end`: the end selector, minimal or maximal. -/
inductive Curve_end where
  | MIN_END
  | MAX_END
  deriving DecidableEq

/-- `CGAL::Boundary_type`, with the three values the header documents for
`Boundary_in_x_2` (lines 275-277). -/
inductive Boundary_type where
  | MINUS_INFINITY
  | NO_BOUNDARY
  | PLUS_INFINITY
  deriving DecidableEq

/-- `CGAL::Object` restricted to what the header wraps with `CGAL::make_object`:
a point (line 635), a segment / x-monotone curve (lines 559, 649, 664) or a
`Point_and_mult` pair of a point and an `unsigned int` (lines 579, 588). -/
inductive Object (Point_2 Segment_2 : Type) where
  | point (p : Point_2)
  | curve (s : Segment_2)
  | point_and_mult (p : Point_2) (m : Nat)
  deriving DecidableEq

/-- What a failed call signals: `CGAL_precondition` (lines 191, 216) or `CGAL_error`
(lines 238, 256). -/
inductive Failure where
  | precondition_violation
  | error (msg : String)
  deriving DecidableEq

/-! ## The collaborators -/

/-- The primitives the header takes from `gaps_` / `GAPS`, from `GPA_2()`
(`do_overlap_2_object`, line 512) and from `InputTraits_2` (`make_sweepable_2_object`,
line 620), and the free functions `source` / `target` of lines 534-542 and 575-578.
None of them is defined in the header, so each is a parameter. -/
structure GAPS (Point_2 Segment_2 Input_object_2 : Type) where
  less_xy : Point_2 → Point_2 → Bool
  point_is_equal : Point_2 → Point_2 → Bool
  source : Segment_2 → Point_2
  target : Segment_2 → Point_2
  is_degenerate : Segment_2 → Bool
  is_reversed : Segment_2 → Bool
  do_overlap : Segment_2 → Segment_2 → Bool
  trim : Segment_2 → Point_2 → Point_2 → Segment_2
  intersect : Segment_2 → Segment_2 → List Point_2
  multiplicity_of_intersection : Segment_2 → Segment_2 → Point_2 → Nat
  new_endpoints_opposite : Segment_2 → Point_2 → Point_2 → Segment_2
  make_sweepable : Input_object_2 → List Segment_2

/-- The primitives the header takes from `GPA_2::Curve_kernel_2`
(`compare_x_2_object`, line 46; `compare_xy_2_object`, lines 110 and 136). -/
structure Curve_kernel_2 (Point_2 : Type) where
  compare_x : Point_2 → Point_2 → Comparison_result
  compare_xy : Point_2 → Point_2 → Comparison_result

variable {Point_2 Segment_2 Input_object_2 : Type}

/-! ## `Compare_x_2`, `Compare_xy_2`, `Equal_2` on points (lines 26-137) -/

/-- `Compare_x_2::operator()(const Point_2&, const Point_2&)` (lines 43-47). -/
def Compare_x_2 (CK : Curve_kernel_2 Point_2) (p1 p2 : Point_2) : Comparison_result :=
  CK.compare_x p1 p2

/-- `Compare_xy_2::operator()` (lines 107-111). -/
def Compare_xy_2 (CK : Curve_kernel_2 Point_2) (p1 p2 : Point_2) : Comparison_result :=
  CK.compare_xy p1 p2

/-- `Equal_2::operator()(const Point_2&, const Point_2&)` (lines 131-137).
`same_object` is the outcome of the address test `&p1 == &p2`. -/
def Equal_2_points (CK : Curve_kernel_2 Point_2) (same_object : Bool) (p1 p2 : Point_2) :
    Bool :=
  if same_object then true
  else decide (CK.compare_xy p1 p2 = Comparison_result.EQUAL)

/-! ## `Intersect_2` (lines 490-594) -/

/-- `std::max(a, b, comp)`: `b` when `comp(a, b)`, else `a`. -/
def std_max (comp : Point_2 → Point_2 → Bool) (a b : Point_2) : Point_2 :=
  if comp a b then b else a

/-- `std::min(a, b, comp)`: `b` when `comp(b, a)`, else `a`. -/
def std_min (comp : Point_2 → Point_2 → Bool) (a b : Point_2) : Point_2 :=
  if comp b a then b else a

/-- Lines 533-538 (and 540-545): the pair `(source, target)` of an arc, swapped
when `!less_xy(first, second)`. -/
def ordered_endpoints (K : GAPS Point_2 Segment_2 Input_object_2) (cv : Segment_2) :
    Point_2 × Point_2 :=
  let first := K.source cv
  let second := K.target cv
  if !K.less_xy first second then (second, first) else (first, second)

/-- Lines 550-552: `greater_source`. -/
def greater_source (K : GAPS Point_2 Segment_2 Input_object_2) (cv1 cv2 : Segment_2) :
    Point_2 :=
  std_max K.less_xy (ordered_endpoints K cv1).1 (ordered_endpoints K cv2).1

/-- Lines 555-557: `smaller_target`. -/
def smaller_target (K : GAPS Point_2 Segment_2 Input_object_2) (cv1 cv2 : Segment_2) :
    Point_2 :=
  std_min K.less_xy (ordered_endpoints K cv1).2 (ordered_endpoints K cv2).2

/-- The body of the loop of lines 571-590: the object written for the candidate
point `it`. -/
def intersection_object (K : GAPS Point_2 Segment_2 Input_object_2) (cv1 cv2 : Segment_2)
    (it : Point_2) : Object Point_2 Segment_2 :=
  if K.point_is_equal (K.source cv1) it ||
      K.point_is_equal (K.target cv1) it ||
      K.point_is_equal (K.source cv2) it ||
      K.point_is_equal (K.target cv2) it then
    Object.point_and_mult it 0
  else
    Object.point_and_mult it (K.multiplicity_of_intersection cv1 cv2 it)

/-- `Intersect_2::operator()` (lines 509-593).  `oi` holds what the output iterator
has received before the call; the result is what it holds at the return. -/
def Intersect_2 (K : GAPS Point_2 Segment_2 Input_object_2) (cv1 cv2 : Segment_2)
    (oi : List (Object Point_2 Segment_2)) : List (Object Point_2 Segment_2) :=
  if K.do_overlap cv1 cv2 then
    let s := K.trim cv2 (greater_source K cv1 cv2) (smaller_target K cv1 cv2)
    oi ++ [Object.curve s]
  else
    let tmp := K.intersect cv1 cv2
    tmp.foldl (fun oi it => oi ++ [intersection_object K cv1 cv2 it]) oi

/-! ## `Make_x_monotone_2` (lines 596-673) -/

/-- The body of the loop of lines 626-667: the object written for the candidate
segment `it`. -/
def sweepable_object (K : GAPS Point_2 Segment_2 Input_object_2) (it : Segment_2) :
    Object Point_2 Segment_2 :=
  if K.is_degenerate it then
    Object.point (K.source it)
  else
    if !K.is_reversed it then
      Object.curve it
    else
      let s := K.new_endpoints_opposite it (K.source it) (K.target it)
      Object.curve s

/-- `Make_x_monotone_2::operator()` (lines 615-672). -/
def Make_x_monotone_2 (K : GAPS Point_2 Segment_2 Input_object_2) (cv : Input_object_2)
    (oi : List (Object Point_2 Segment_2)) : List (Object Point_2 Segment_2) :=
  let tmp := K.make_sweepable cv
  tmp.foldl (fun oi it => oi ++ [sweepable_object K it]) oi

/-! ## The function objects over `Arc_2` (lines 114-221, 415-488) -/

/-- The methods of `Arc_2` the header calls (`cv.get_boundary_in_x(end)`,
`cv.get_curve_end(end)`, `cv1.is_equal(cv2)`, `cv1.merge(cv2)`, `cv.split(p, c1, c2)`)
and `are_mergeable`, which the header takes from `gaps_` (lines 434-437).  `merge` and
`split` have preconditions of their own, so they may fail. -/
structure Arc_2_methods (Point_2 Arc_2 : Type) where
  get_boundary_in_x : Arc_2 → Curve_end → Boundary_type
  get_boundary_in_y : Arc_2 → Curve_end → Boundary_type
  get_curve_end : Arc_2 → Curve_end → Point_2
  is_equal : Arc_2 → Arc_2 → Bool
  are_mergeable : Arc_2 → Arc_2 → Bool
  merge : Arc_2 → Arc_2 → Except Failure Arc_2
  split : Arc_2 → Point_2 → Except Failure (Arc_2 × Arc_2)

variable {Arc_2 : Type}

/-- Modelled from the spec: the macro `CGAL_precondition`, which the header uses and
does not define.  A precondition that does not hold "fails with a precondition
violation"; one that holds lets the call go on. -/
def CGAL_precondition (cond : Bool) : Except Failure Unit :=
  if cond then Except.ok () else Except.error Failure.precondition_violation

/-- `Construct_min_vertex_2::operator()` (lines 189-195). -/
def Construct_min_vertex_2 (A : Arc_2_methods Point_2 Arc_2) (cv : Arc_2) :
    Except Failure Point_2 :=
  CGAL_precondition
      (decide (A.get_boundary_in_x cv Curve_end.MIN_END = Boundary_type.NO_BOUNDARY) &&
       decide (A.get_boundary_in_y cv Curve_end.MIN_END = Boundary_type.NO_BOUNDARY)) >>=
    fun _ => Except.ok (A.get_curve_end cv Curve_end.MIN_END)

/-- `Construct_max_vertex_2::operator()` (lines 214-220). -/
def Construct_max_vertex_2 (A : Arc_2_methods Point_2 Arc_2) (cv : Arc_2) :
    Except Failure Point_2 :=
  CGAL_precondition
      (decide (A.get_boundary_in_x cv Curve_end.MAX_END = Boundary_type.NO_BOUNDARY) &&
       decide (A.get_boundary_in_y cv Curve_end.MAX_END = Boundary_type.NO_BOUNDARY)) >>=
    fun _ => Except.ok (A.get_curve_end cv Curve_end.MAX_END)

/-- Modelled from the spec: the macro `CGAL_error`, which the header uses and does
not define: the operation "must unconditionally fail if invoked". -/
def CGAL_error (msg : String) : Except Failure Unit :=
  Except.error (Failure.error msg)

/-- `Infinite_in_x_2::operator()` (lines 236-240). -/
def Infinite_in_x_2 (_cv : Arc_2) (_end : Curve_end) : Except Failure Boundary_type :=
  CGAL_error "The functor is considered deprecated ?!" >>=
    fun _ => Except.ok Boundary_type.NO_BOUNDARY

/-- `Infinite_in_y_2::operator()` (lines 254-258). -/
def Infinite_in_y_2 (_cv : Arc_2) (_end : Curve_end) : Except Failure Boundary_type :=
  CGAL_error "The functor is considered deprecated ?!" >>=
    fun _ => Except.ok Boundary_type.NO_BOUNDARY

/-- `Boundary_in_x_2::operator()` (lines 279-283). -/
def Boundary_in_x_2 (A : Arc_2_methods Point_2 Arc_2) (cv : Arc_2) (e : Curve_end) :
    Boundary_type :=
  A.get_boundary_in_x cv e

/-- `Boundary_in_y_2::operator()` (lines 304-308). -/
def Boundary_in_y_2 (A : Arc_2_methods Point_2 Arc_2) (cv : Arc_2) (e : Curve_end) :
    Boundary_type :=
  A.get_boundary_in_y cv e

/-- `Are_mergeable_2::operator()` (lines 432-438). -/
def Are_mergeable_2 (A : Arc_2_methods Point_2 Arc_2) (cv1 cv2 : Arc_2) : Bool :=
  A.are_mergeable cv1 cv2

/-- `Merge_2::operator()` (lines 459-462): `c = cv1.merge(cv2)`. -/
def Merge_2 (A : Arc_2_methods Point_2 Arc_2) (cv1 cv2 : Arc_2) : Except Failure Arc_2 :=
  A.merge cv1 cv2

/-- `Split_2::operator()` (lines 483-487): `cv.split(p, c1, c2)`; the result is the
pair `(c1, c2)`. -/
def Split_2 (A : Arc_2_methods Point_2 Arc_2) (cv : Arc_2) (p : Point_2) :
    Except Failure (Arc_2 × Arc_2) :=
  A.split cv p

/-! ## A concrete kernel: axis-parallel segments between lattice points

The statements below are instantiated on this kernel.  Its segments are horizontal
or vertical, so two of them that do not overlap meet in at most one point, and that
point is a lattice point: every primitive is exact. -/

/-- A point with integer coordinates `(x, y)`. -/
abbrev Lattice_point := Int × Int

/-- The lexicographic order on lattice points: by `x`, then by `y`. -/
def lattice_less_xy (p q : Lattice_point) : Bool :=
  decide (p.1 < q.1) || (decide (p.1 = q.1) && decide (p.2 < q.2))

/-- The three-way comparison of two integers. -/
def compare_int (a b : Int) : Comparison_result :=
  if a < b then Comparison_result.SMALLER
  else if a = b then Comparison_result.EQUAL
  else Comparison_result.LARGER

/-- The curve kernel of lattice points: comparison by `x`, and by `x` then `y`. -/
def lattice_kernel : Curve_kernel_2 Lattice_point where
  compare_x := fun p q => compare_int p.1 q.1
  compare_xy := fun p q =>
    match compare_int p.1 q.1 with
    | Comparison_result.EQUAL => compare_int p.2 q.2
    | c => c

/-- A directed axis-parallel segment: on the line `y = c` from `x = a` to `x = b`, or
on the line `x = c` from `y = a` to `y = b`. -/
inductive Rect_segment where
  | horizontal (c a b : Int)
  | vertical (c a b : Int)
  deriving DecidableEq

namespace Rect_segment

/-- The point the segment starts at. -/
def source : Rect_segment → Lattice_point
  | horizontal c a _ => (a, c)
  | vertical c a _ => (c, a)

/-- The point the segment ends at. -/
def target : Rect_segment → Lattice_point
  | horizontal c _ b => (b, c)
  | vertical c _ b => (c, b)

/-- The lexicographically smaller endpoint. -/
def left (s : Rect_segment) : Lattice_point :=
  if lattice_less_xy s.target s.source then s.target else s.source

/-- The lexicographically larger endpoint. -/
def right (s : Rect_segment) : Lattice_point :=
  if lattice_less_xy s.target s.source then s.source else s.target

/-- Whether both segments lie on one line. -/
def same_line : Rect_segment → Rect_segment → Bool
  | horizontal c _ _, horizontal d _ _ => decide (c = d)
  | vertical c _ _, vertical d _ _ => decide (c = d)
  | _, _ => false

/-- Whether the point lies on the segment. -/
def contains : Rect_segment → Lattice_point → Bool
  | horizontal c a b, p => decide (p.2 = c) && decide (min a b ≤ p.1) && decide (p.1 ≤ max a b)
  | vertical c a b, p => decide (p.1 = c) && decide (min a b ≤ p.2) && decide (p.2 ≤ max a b)

/-- The larger of the two left endpoints. -/
def overlap_left (s t : Rect_segment) : Lattice_point :=
  if lattice_less_xy s.left t.left then t.left else s.left

/-- The smaller of the two right endpoints. -/
def overlap_right (s t : Rect_segment) : Lattice_point :=
  if lattice_less_xy t.right s.right then t.right else s.right

/-- Two segments overlap when they lie on one line and share more than one point. -/
def do_overlap (s t : Rect_segment) : Bool :=
  same_line s t && lattice_less_xy (overlap_left s t) (overlap_right s t)

/-- The points two segments that do not overlap have in common: at most one. -/
def intersect (s t : Rect_segment) : List Lattice_point :=
  match s, t with
  | horizontal c _ _, vertical d _ _ =>
    if contains s (d, c) && contains t (d, c) then [(d, c)] else []
  | vertical c _ _, horizontal d _ _ =>
    if contains s (c, d) && contains t (c, d) then [(c, d)] else []
  | _, _ =>
    if same_line s t && decide (overlap_left s t = overlap_right s t) then [overlap_left s t]
    else []

/-- The piece of the line of `s` from `p` to `q`. -/
def trim : Rect_segment → Lattice_point → Lattice_point → Rect_segment
  | horizontal c _ _, p, q => horizontal c p.1 q.1
  | vertical c _ _, p, q => vertical c p.2 q.2

/-- The piece of the line of `s` between `p` and `q`, directed from `q` to `p`. -/
def new_endpoints_opposite : Rect_segment → Lattice_point → Lattice_point → Rect_segment
  | horizontal c _ _, p, q => horizontal c q.1 p.1
  | vertical c _ _, p, q => vertical c q.2 p.2

end Rect_segment

/-- The kernel of axis-parallel lattice segments.  An input curve is a list of
segments and is sweepable as it is; two distinct lines cross with multiplicity 1. -/
def rectilinear : GAPS Lattice_point Rect_segment (List Rect_segment) where
  less_xy := lattice_less_xy
  point_is_equal := fun p q => decide (p = q)
  source := Rect_segment.source
  target := Rect_segment.target
  is_degenerate := fun s => decide (s.source = s.target)
  is_reversed := fun s => lattice_less_xy s.target s.source
  do_overlap := Rect_segment.do_overlap
  trim := Rect_segment.trim
  intersect := Rect_segment.intersect
  multiplicity_of_intersection := fun _ _ _ => 1
  new_endpoints_opposite := Rect_segment.new_endpoints_opposite
  make_sweepable := fun cv => cv

/-! ## A second concrete kernel: arcs of a parabola and of horizontal lines

Arcs of the parabola `y = x * x` and of the horizontal lines `y = k * k`, between
lattice points.  The parabola meets the line `y = k * k` at `x = -k` and `x = k`, so
two arcs that do not overlap can meet in two points, and these are lattice points. -/

/-- A directed arc of the parabola `y = x * x` from `x = a` to `x = b`, or of the
horizontal line `y = k * k` from `x = a` to `x = b`. -/
inductive Parabola_arc where
  | parabola (a b : Int)
  | level (k : Nat) (a b : Int)
  deriving DecidableEq

namespace Parabola_arc

/-- The height of the supporting curve at `x`. -/
def height_at : Parabola_arc → Int → Int
  | parabola _ _, x => x * x
  | level k _ _, _ => (k : Int) * (k : Int)

/-- The `x` the arc starts at. -/
def from_x : Parabola_arc → Int
  | parabola a _ => a
  | level _ a _ => a

/-- The `x` the arc ends at. -/
def to_x : Parabola_arc → Int
  | parabola _ b => b
  | level _ _ b => b

/-- The point the arc starts at. -/
def source (s : Parabola_arc) : Lattice_point :=
  (s.from_x, s.height_at s.from_x)

/-- The point the arc ends at. -/
def target (s : Parabola_arc) : Lattice_point :=
  (s.to_x, s.height_at s.to_x)

/-- The smallest `x` of the arc. -/
def left_x (s : Parabola_arc) : Int :=
  min s.from_x s.to_x

/-- The largest `x` of the arc. -/
def right_x (s : Parabola_arc) : Int :=
  max s.from_x s.to_x

/-- Whether `x` is in the `x`-range of the arc. -/
def in_range (s : Parabola_arc) (x : Int) : Bool :=
  decide (s.left_x ≤ x) && decide (x ≤ s.right_x)

/-- Whether both arcs have one supporting curve. -/
def same_curve : Parabola_arc → Parabola_arc → Bool
  | parabola _ _, parabola _ _ => true
  | level k _ _, level j _ _ => decide (k = j)
  | _, _ => false

/-- Two arcs overlap when they have one supporting curve and their `x`-ranges share
more than one point. -/
def do_overlap (s t : Parabola_arc) : Bool :=
  same_curve s t && decide (max s.left_x t.left_x < min s.right_x t.right_x)

/-- The `x` at which the parabola meets the line `y = k * k`, in increasing order. -/
def crossings (k : Nat) : List Int :=
  if k = 0 then [0] else [-(k : Int), (k : Int)]

/-- The points two arcs that do not overlap have in common, by increasing `x`. -/
def intersect (s t : Parabola_arc) : List Lattice_point :=
  match s, t with
  | parabola _ _, level k _ _ =>
    ((crossings k).filter (fun x => s.in_range x && t.in_range x)).map (fun x => (x, x * x))
  | level k _ _, parabola _ _ =>
    ((crossings k).filter (fun x => s.in_range x && t.in_range x)).map (fun x => (x, x * x))
  | _, _ =>
    if same_curve s t && decide (max s.left_x t.left_x = min s.right_x t.right_x) then
      [(max s.left_x t.left_x, s.height_at (max s.left_x t.left_x))]
    else []

/-- The multiplicity of an intersection: 2 where the line `y = 0` touches the parabola,
1 where another line crosses it. -/
def multiplicity_of_intersection : Parabola_arc → Parabola_arc → Lattice_point → Nat
  | parabola _ _, level 0 _ _, _ => 2
  | level 0 _ _, parabola _ _, _ => 2
  | _, _, _ => 1

/-- The piece of the supporting curve of `s` from `p` to `q`. -/
def trim : Parabola_arc → Lattice_point → Lattice_point → Parabola_arc
  | parabola _ _, p, q => parabola p.1 q.1
  | level k _ _, p, q => level k p.1 q.1

/-- The piece of the supporting curve of `s` between `p` and `q`, directed from `q` to
`p`. -/
def new_endpoints_opposite : Parabola_arc → Lattice_point → Lattice_point → Parabola_arc
  | parabola _ _, p, q => parabola q.1 p.1
  | level k _ _, p, q => level k q.1 p.1

end Parabola_arc

/-- The kernel of the arcs of the parabola `y = x * x` and of the lines `y = k * k`.
An input curve is a list of arcs and is sweepable as it is. -/
def parabolic : GAPS Lattice_point Parabola_arc (List Parabola_arc) where
  less_xy := lattice_less_xy
  point_is_equal := fun p q => decide (p = q)
  source := Parabola_arc.source
  target := Parabola_arc.target
  is_degenerate := fun s => decide (s.from_x = s.to_x)
  is_reversed := fun s => decide (s.to_x < s.from_x)
  do_overlap := Parabola_arc.do_overlap
  trim := Parabola_arc.trim
  intersect := Parabola_arc.intersect
  multiplicity_of_intersection := Parabola_arc.multiplicity_of_intersection
  new_endpoints_opposite := Parabola_arc.new_endpoints_opposite
  make_sweepable := fun cv => cv

/-! ## The arcs of the specification

`Arc_2` is not defined in the header.  What its methods `split`, `merge`,
`is_equal`, `get_boundary_in_x/y`, `get_curve_end` and the predicate `are_mergeable`
do is taken from the specification (sections 3, 4.1, 4.2 and 4.4). -/

/-- Modelled from the spec: a coordinate of a curve end of `Arc_2` (type absent from
the header), which "may be finite or may lie at an unbounded boundary". -/
inductive Spec_coordinate where
  | minus_infinity
  | finite (v : Int)
  | plus_infinity
  deriving DecidableEq

namespace Spec_coordinate

/-- Modelled from the spec: the boundary classification of a coordinate of `Arc_2`'s
curve end, "negative-infinity, finite, positive-infinity". -/
def boundary : Spec_coordinate → Boundary_type
  | minus_infinity => Boundary_type.MINUS_INFINITY
  | finite _ => Boundary_type.NO_BOUNDARY
  | plus_infinity => Boundary_type.PLUS_INFINITY

/-- Modelled from the spec: the order of the coordinates of `Arc_2`'s curve ends;
"boundary endpoints compare as less/greater than every finite point according to
their infinity sign". -/
def less : Spec_coordinate → Spec_coordinate → Bool
  | minus_infinity, minus_infinity => false
  | minus_infinity, _ => true
  | finite _, minus_infinity => false
  | finite a, finite b => decide (a < b)
  | finite _, plus_infinity => true
  | plus_infinity, _ => false

/-- The value of a finite coordinate (0 for an unbounded one, which no caller reads:
`Construct_min_vertex_2` and `Construct_max_vertex_2` check the boundary first). -/
def value : Spec_coordinate → Int
  | finite v => v
  | _ => 0

end Spec_coordinate

/-- Modelled from the spec: a curve end of `Arc_2` (absent from the header), with a
boundary classification in `x` and in `y`. -/
structure Spec_end where
  x : Spec_coordinate
  y : Spec_coordinate
  deriving DecidableEq

namespace Spec_end

/-- Modelled from the spec: the `(x, y)` order extended to the curve ends of `Arc_2`,
"x primary, y secondary". -/
def less (a b : Spec_end) : Bool :=
  a.x.less b.x || (decide (a.x = b.x) && a.y.less b.y)

/-- The curve end at a finite point. -/
def of_point (p : Lattice_point) : Spec_end :=
  ⟨Spec_coordinate.finite p.1, Spec_coordinate.finite p.2⟩

/-- The point of a finite curve end. -/
def point (e : Spec_end) : Lattice_point :=
  (e.x.value, e.y.value)

/-- The smaller of two curve ends. -/
def min (a b : Spec_end) : Spec_end :=
  if b.less a then b else a

/-- The larger of two curve ends. -/
def max (a b : Spec_end) : Spec_end :=
  if a.less b then b else a

end Spec_end

/-- Modelled from the spec: `Arc_2` (absent from the header), "an x-monotone piece of
a supporting curve" that "exposes a minimal and maximal endpoint", each of which "may
be finite or may lie at an unbounded boundary in x and/or y". -/
structure Spec_arc (Curve : Type) where
  curve : Curve
  min_end : Spec_end
  max_end : Spec_end
  deriving DecidableEq

namespace Spec_arc

variable {Curve : Type} [DecidableEq Curve]

/-- The end of the arc an end selector names. -/
def curve_end (cv : Spec_arc Curve) : Curve_end → Spec_end
  | Curve_end.MIN_END => cv.min_end
  | Curve_end.MAX_END => cv.max_end

/-- Modelled from the spec: "`point` lies on `arc`" for `Arc_2` (absent from the
header): the point is on the supporting curve, between the two ends of the arc. -/
def lies_on (on_curve : Curve → Lattice_point → Bool) (cv : Spec_arc Curve)
    (p : Lattice_point) : Bool :=
  on_curve cv.curve p && !(Spec_end.of_point p).less cv.min_end &&
    !cv.max_end.less (Spec_end.of_point p)

/-- Modelled from the spec: the precondition of `Arc_2::split` (absent from the
header), "`point` lies on `arc` and is strictly interior (not an endpoint)". -/
def strictly_interior (on_curve : Curve → Lattice_point → Bool) (cv : Spec_arc Curve)
    (p : Lattice_point) : Bool :=
  lies_on on_curve cv p && !decide (Spec_end.of_point p = cv.min_end) &&
    !decide (Spec_end.of_point p = cv.max_end)

/-- Modelled from the spec: `Arc_2::split` (absent from the header).  "precondition —
`point` lies on `arc` and is strictly interior (not an endpoint). `left_arc`'s maximal
vertex and `right_arc`'s minimal vertex both equal `point`"; the left arc keeps the
minimal end of the arc and the right arc its maximal end ("`split` of arc [x=0,x=5] at
point x=2 → returns left arc [0,2] and right arc [2,5]"). -/
def split (on_curve : Curve → Lattice_point → Bool) (cv : Spec_arc Curve)
    (p : Lattice_point) : Except Failure (Spec_arc Curve × Spec_arc Curve) :=
  CGAL_precondition (strictly_interior on_curve cv p) >>= fun _ =>
    Except.ok ({ cv with max_end := Spec_end.of_point p },
               { cv with min_end := Spec_end.of_point p })

/-- Modelled from the spec: `are_mergeable` (taken from `gaps_`, absent from the
header), "true iff both arcs are supported by the same underlying curve and share
exactly one endpoint (the other two endpoints differ)". -/
def are_mergeable (cv1 cv2 : Spec_arc Curve) : Bool :=
  decide (cv1.curve = cv2.curve) &&
    ((decide (cv1.min_end = cv2.min_end) && !decide (cv1.max_end = cv2.max_end)) ||
     (decide (cv1.min_end = cv2.max_end) && !decide (cv1.max_end = cv2.min_end)) ||
     (decide (cv1.max_end = cv2.min_end) && !decide (cv1.min_end = cv2.max_end)) ||
     (decide (cv1.max_end = cv2.max_end) && !decide (cv1.min_end = cv2.min_end)))

/-- Modelled from the spec: `Arc_2::merge` (absent from the header).  "precondition —
`are_mergeable(arc1, arc2)`. Produces the single arc spanning both input ranges." -/
def merge (cv1 cv2 : Spec_arc Curve) : Except Failure (Spec_arc Curve) :=
  CGAL_precondition (are_mergeable cv1 cv2) >>= fun _ =>
    Except.ok { curve := cv1.curve,
                min_end := Spec_end.min cv1.min_end cv2.min_end,
                max_end := Spec_end.max cv1.max_end cv2.max_end }

/-- Modelled from the spec: `Arc_2::is_equal` (absent from the header), "true iff the
two arcs represent the same geometric graph (same supporting curve and same parameter
range)". -/
def is_equal (cv1 cv2 : Spec_arc Curve) : Bool :=
  decide (cv1 = cv2)

end Spec_arc

/-- Modelled from the spec: the methods of `Arc_2` (absent from the header) over a
family of supporting curves, `on_curve c p` telling whether `p` is a point of `c`. -/
def spec_arcs {Curve : Type} [DecidableEq Curve] (on_curve : Curve → Lattice_point → Bool) :
    Arc_2_methods Lattice_point (Spec_arc Curve) where
  get_boundary_in_x := fun cv e => (cv.curve_end e).x.boundary
  get_boundary_in_y := fun cv e => (cv.curve_end e).y.boundary
  get_curve_end := fun cv e => (cv.curve_end e).point
  is_equal := Spec_arc.is_equal
  are_mergeable := Spec_arc.are_mergeable
  merge := Spec_arc.merge
  split := Spec_arc.split on_curve

/-- A supporting line `y = m * x + b`, given as `(m, b)`. -/
abbrev Line := Int × Int

/-- Whether a lattice point is on a supporting line. -/
def on_line (c : Line) (p : Lattice_point) : Bool :=
  decide (p.2 = c.1 * p.1 + c.2)

/-- The arc of the line `y = 0` between `x = a` and `x = b`. -/
def x_axis_arc (a b : Int) : Spec_arc Line :=
  { curve := (0, 0),
    min_end := Spec_end.of_point (a, 0),
    max_end := Spec_end.of_point (b, 0) }

/-- Whether a call returned this value. -/
def returns {α : Type} [DecidableEq α] (r : Except Failure α) (a : α) : Bool :=
  match r with
  | Except.ok b => decide (b = a)
  | Except.error _ => false

/-- Whether a call failed with a precondition violation. -/
def violates_precondition {α : Type} (r : Except Failure α) : Bool :=
  match r with
  | Except.ok _ => false
  | Except.error e => decide (e = Failure.precondition_violation)

/-! ## What the statements assume of the kernel -/

/-- The point order never holds both ways: `less_xy p q` excludes `less_xy q p`. -/
def less_xy_asymmetric (K : GAPS Point_2 Segment_2 Input_object_2) : Prop :=
  ∀ p q, K.less_xy p q = true → K.less_xy q p = false

/-- Rebuilding a segment from its own source and target swaps them: the
specification's "constructor to rebuild a segment with swapped endpoints". -/
def opposite_swaps_endpoints (K : GAPS Point_2 Segment_2 Input_object_2) : Prop :=
  ∀ s, K.source (K.new_endpoints_opposite s (K.source s) (K.target s)) = K.target s ∧
    K.target (K.new_endpoints_opposite s (K.source s) (K.target s)) = K.source s

/-- A segment is reversed exactly when its source is larger than its target in the
point order: its "direction is reversed relative to that order". -/
def reversed_iff_larger (CK : Curve_kernel_2 Point_2)
    (K : GAPS Point_2 Segment_2 Input_object_2) : Prop :=
  ∀ s, K.is_reversed s = true ↔
    CK.compare_xy (K.source s) (K.target s) = Comparison_result.LARGER

/-- A segment is degenerate exactly when "its two endpoints coincide". -/
def degenerate_iff_equal (CK : Curve_kernel_2 Point_2)
    (K : GAPS Point_2 Segment_2 Input_object_2) : Prop :=
  ∀ s, K.is_degenerate s = true ↔
    CK.compare_xy (K.source s) (K.target s) = Comparison_result.EQUAL

/-- Exchanging the arguments of `compare_xy` turns LARGER into SMALLER. -/
def compare_xy_antisymmetric (CK : Curve_kernel_2 Point_2) : Prop :=
  ∀ p q, CK.compare_xy p q = Comparison_result.LARGER →
    CK.compare_xy q p = Comparison_result.SMALLER

/-- Comparing a point with itself gives EQUAL: the specification's
"`compare_xy(p,p)` = equal". -/
def compare_xy_reflexive (CK : Curve_kernel_2 Point_2) : Prop :=
  ∀ p, CK.compare_xy p p = Comparison_result.EQUAL

/-- The point order is a strict total order: no point is less than itself, the order
is transitive, and of two different points one is less than the other. -/
def less_xy_strict_total_order (K : GAPS Point_2 Segment_2 Input_object_2) : Prop :=
  (∀ p, K.less_xy p p = false) ∧
  (∀ p q r, K.less_xy p q = true → K.less_xy q r = true → K.less_xy p r = true) ∧
  (∀ p q, K.less_xy p q = true ∨ p = q ∨ K.less_xy q p = true)

/-- Whether `lo <= p <= hi` in the point order: `p` is not less than `lo` and `hi` is
not less than `p`. -/
def in_closed_range (K : GAPS Point_2 Segment_2 Input_object_2) (lo hi p : Point_2) :
    Bool :=
  !K.less_xy p lo && !K.less_xy hi p

/-! # Theorems -/

/-! ## Output loops -/

theorem foldl_push_eq_append_map {α β : Type} (f : α → β) (l : List α) (oi : List β) :
    l.foldl (fun oi it => oi ++ [f it]) oi = oi ++ l.map f := by
  induction l generalizing oi with
  | nil => simp
  | cons a l ih => simp [ih]

theorem Intersect_2_of_overlap (K : GAPS Point_2 Segment_2 Input_object_2)
    (cv1 cv2 : Segment_2) (oi : List (Object Point_2 Segment_2))
    (h : K.do_overlap cv1 cv2 = true) :
    Intersect_2 K cv1 cv2 oi =
      oi ++ [Object.curve (K.trim cv2 (greater_source K cv1 cv2) (smaller_target K cv1 cv2))] := by
  simp [Intersect_2, h]

theorem Intersect_2_of_not_overlap (K : GAPS Point_2 Segment_2 Input_object_2)
    (cv1 cv2 : Segment_2) (oi : List (Object Point_2 Segment_2))
    (h : K.do_overlap cv1 cv2 = false) :
    Intersect_2 K cv1 cv2 oi =
      oi ++ (K.intersect cv1 cv2).map (intersection_object K cv1 cv2) := by
  simp [Intersect_2, h, foldl_push_eq_append_map]

theorem getElem?_append_map {α β : Type} (f : α → β) (l : List α) (oi : List β) (i : Nat) :
    (oi ++ l.map f)[oi.length + i]? = (l[i]?).map f := by
  simp [List.getElem?_append_right]

/-- C1: when the overlap test holds for `cv1` and `cv2`, `Intersect_2` writes exactly
one object, that object wraps a sub-curve, no point result is written, and the output
is the same whatever the kernel's intersection and multiplicity primitives are. -/
theorem Intersect_2_overlap_exclusive (K : GAPS Point_2 Segment_2 Input_object_2)
    (cv1 cv2 : Segment_2) (oi : List (Object Point_2 Segment_2))
    (h : K.do_overlap cv1 cv2 = true) :
    (∃ s, Intersect_2 K cv1 cv2 oi = oi ++ [Object.curve s]) ∧
    (Intersect_2 K cv1 cv2 []).length = 1 ∧
    (∀ o ∈ Intersect_2 K cv1 cv2 [], (∃ s, o = Object.curve s) ∧
      (∀ p m, o ≠ Object.point_and_mult p m) ∧ ∀ p, o ≠ Object.point p) ∧
    (∀ f g, Intersect_2 { K with intersect := f, multiplicity_of_intersection := g }
        cv1 cv2 oi = Intersect_2 K cv1 cv2 oi) := by
  refine ⟨⟨_, Intersect_2_of_overlap K cv1 cv2 oi h⟩, ?_, ?_, ?_⟩
  · simp [Intersect_2_of_overlap K cv1 cv2 [] h]
  · intro o ho
    rw [Intersect_2_of_overlap K cv1 cv2 [] h] at ho
    simp at ho
    subst ho
    exact ⟨⟨_, rfl⟩, by simp, by simp⟩
  · intro f g
    rw [Intersect_2_of_overlap K cv1 cv2 oi h]
    simp [Intersect_2, h, greater_source, smaller_target, ordered_endpoints]

/-- C1 on the rectilinear kernel: the arcs `x ∈ [0,3]` and `x ∈ [2,5]` of the line `y = 0`
overlap, and one sub-curve is written. -/
theorem Intersect_2_overlap_exclusive_witness :
    rectilinear.do_overlap (Rect_segment.horizontal 0 0 3) (Rect_segment.horizontal 0 2 5) = true ∧
    Intersect_2 rectilinear (Rect_segment.horizontal 0 0 3) (Rect_segment.horizontal 0 2 5) [] =
      [Object.curve (Rect_segment.horizontal 0 2 3)] ∧
    (Intersect_2 rectilinear (Rect_segment.horizontal 0 0 3)
      (Rect_segment.horizontal 0 2 5) []).length = 1 :=
  ⟨by decide, by decide,
    (Intersect_2_overlap_exclusive rectilinear (Rect_segment.horizontal 0 0 3)
      (Rect_segment.horizontal 0 2 5) [] (by decide)).2.1⟩


theorem ordered_endpoints_cases (K : GAPS Point_2 Segment_2 Input_object_2) (cv : Segment_2) :
    ordered_endpoints K cv = (K.source cv, K.target cv) ∨
      ordered_endpoints K cv = (K.target cv, K.source cv) := by
  unfold ordered_endpoints
  by_cases h : K.less_xy (K.source cv) (K.target cv) = true <;> simp [h]

theorem ordered_endpoints_le (K : GAPS Point_2 Segment_2 Input_object_2)
    (hasym : less_xy_asymmetric K) (cv : Segment_2) :
    K.less_xy (ordered_endpoints K cv).2 (ordered_endpoints K cv).1 = false := by
  unfold ordered_endpoints
  by_cases h : K.less_xy (K.source cv) (K.target cv) = true
  · simp [h, hasym _ _ h]
  · simp [h]

theorem std_max_upper (less : Point_2 → Point_2 → Bool)
    (hasym : ∀ p q, less p q = true → less q p = false) (a b : Point_2) :
    (std_max less a b = a ∨ std_max less a b = b) ∧
      less (std_max less a b) a = false ∧ less (std_max less a b) b = false := by
  have hirr : ∀ p, less p p = false := fun p => by
    by_cases h : less p p = true
    · exact hasym p p h
    · simpa using h
  unfold std_max
  by_cases h : less a b = true
  · simp [h, hasym _ _ h, hirr]
  · simp [h, hirr]

theorem std_min_lower (less : Point_2 → Point_2 → Bool)
    (hasym : ∀ p q, less p q = true → less q p = false) (a b : Point_2) :
    (std_min less a b = a ∨ std_min less a b = b) ∧
      less a (std_min less a b) = false ∧ less b (std_min less a b) = false := by
  have hirr : ∀ p, less p p = false := fun p => by
    by_cases h : less p p = true
    · exact hasym p p h
    · simpa using h
  unfold std_min
  by_cases h : less b a = true
  · simp [h, hasym _ _ h, hirr]
  · simp [h, hirr]

/-- C2: for an overlapping pair, with a point order that never holds both ways, the one
object `Intersect_2` writes is the input arc `cv2` trimmed to `[lo, hi]`: the endpoints
of each arc are its source and target put in order (the second is not less than the
first), `lo` is one of the two ordered first endpoints and is less than neither, `hi`
is one of the two ordered second endpoints and neither is less than it. -/
theorem Intersect_2_overlap_range (K : GAPS Point_2 Segment_2 Input_object_2)
    (cv1 cv2 : Segment_2) (oi : List (Object Point_2 Segment_2))
    (hasym : less_xy_asymmetric K) (h : K.do_overlap cv1 cv2 = true) :
    let c1 := ordered_endpoints K cv1
    let c2 := ordered_endpoints K cv2
    let lo := greater_source K cv1 cv2
    let hi := smaller_target K cv1 cv2
    Intersect_2 K cv1 cv2 oi = oi ++ [Object.curve (K.trim cv2 lo hi)] ∧
    (c1 = (K.source cv1, K.target cv1) ∨ c1 = (K.target cv1, K.source cv1)) ∧
    (c2 = (K.source cv2, K.target cv2) ∨ c2 = (K.target cv2, K.source cv2)) ∧
    K.less_xy c1.2 c1.1 = false ∧ K.less_xy c2.2 c2.1 = false ∧
    (lo = c1.1 ∨ lo = c2.1) ∧ K.less_xy lo c1.1 = false ∧ K.less_xy lo c2.1 = false ∧
    (hi = c1.2 ∨ hi = c2.2) ∧ K.less_xy c1.2 hi = false ∧ K.less_xy c2.2 hi = false := by
  intro c1 c2 lo hi
  have hmax := std_max_upper K.less_xy hasym c1.1 c2.1
  have hmin := std_min_lower K.less_xy hasym c1.2 c2.2
  exact ⟨Intersect_2_of_overlap K cv1 cv2 oi h, ordered_endpoints_cases K cv1,
    ordered_endpoints_cases K cv2, ordered_endpoints_le K hasym cv1,
    ordered_endpoints_le K hasym cv2, hmax.1, hmax.2.1, hmax.2.2, hmin.1, hmin.2.1, hmin.2.2⟩

theorem lattice_less_xy_asymm (p q : Lattice_point) (h : lattice_less_xy p q = true) :
    lattice_less_xy q p = false := by
  simp only [lattice_less_xy, Bool.or_eq_true, Bool.and_eq_true, decide_eq_true_eq,
    Bool.or_eq_false_iff, Bool.and_eq_false_iff, decide_eq_false_iff_not] at h ⊢
  omega

theorem rectilinear_less_xy_asymmetric : less_xy_asymmetric rectilinear :=
  fun p q h => lattice_less_xy_asymm p q h

/-- C2 on the rectilinear kernel: for the arcs `x ∈ [0,3]` and `x ∈ [2,5]` of the line
`y = 0`, `lo` is `(2, 0)`, `hi` is `(3, 0)` and the sub-arc written spans `x ∈ [2,3]`. -/
theorem Intersect_2_overlap_range_witness :
    less_xy_asymmetric rectilinear ∧
    rectilinear.do_overlap (Rect_segment.horizontal 0 0 3) (Rect_segment.horizontal 0 2 5) = true ∧
    greater_source rectilinear (Rect_segment.horizontal 0 0 3) (Rect_segment.horizontal 0 2 5)
      = (2, 0) ∧
    smaller_target rectilinear (Rect_segment.horizontal 0 0 3) (Rect_segment.horizontal 0 2 5)
      = (3, 0) ∧
    Intersect_2 rectilinear (Rect_segment.horizontal 0 0 3) (Rect_segment.horizontal 0 2 5) [] =
      [] ++ [Object.curve (Rect_segment.horizontal 0 2 3)] :=
  ⟨rectilinear_less_xy_asymmetric, by decide, by decide, by decide,
    (Intersect_2_overlap_range rectilinear (Rect_segment.horizontal 0 0 3)
      (Rect_segment.horizontal 0 2 5) [] rectilinear_less_xy_asymmetric (by decide)).1⟩


theorem intersection_object_of_endpoint (K : GAPS Point_2 Segment_2 Input_object_2)
    (cv1 cv2 : Segment_2) (p : Point_2)
    (hend : K.point_is_equal (K.source cv1) p = true ∨ K.point_is_equal (K.target cv1) p = true ∨
      K.point_is_equal (K.source cv2) p = true ∨ K.point_is_equal (K.target cv2) p = true) :
    intersection_object K cv1 cv2 p = Object.point_and_mult p 0 := by
  unfold intersection_object
  rcases hend with h | h | h | h <;> simp [h]

theorem intersection_object_of_not_endpoint (K : GAPS Point_2 Segment_2 Input_object_2)
    (cv1 cv2 : Segment_2) (p : Point_2)
    (h1 : K.point_is_equal (K.source cv1) p = false)
    (h2 : K.point_is_equal (K.target cv1) p = false)
    (h3 : K.point_is_equal (K.source cv2) p = false)
    (h4 : K.point_is_equal (K.target cv2) p = false) :
    intersection_object K cv1 cv2 p =
      Object.point_and_mult p (K.multiplicity_of_intersection cv1 cv2 p) := by
  simp [intersection_object, h1, h2, h3, h4]

theorem Intersect_2_getElem?_of_not_overlap (K : GAPS Point_2 Segment_2 Input_object_2)
    (cv1 cv2 : Segment_2) (oi : List (Object Point_2 Segment_2)) (i : Nat)
    (h : K.do_overlap cv1 cv2 = false) :
    (Intersect_2 K cv1 cv2 oi)[oi.length + i]? =
      ((K.intersect cv1 cv2)[i]?).map (intersection_object K cv1 cv2) := by
  rw [Intersect_2_of_not_overlap K cv1 cv2 oi h, getElem?_append_map]

theorem Intersect_2_getElem?_of_endpoint (K : GAPS Point_2 Segment_2 Input_object_2)
    (cv1 cv2 : Segment_2) (oi : List (Object Point_2 Segment_2)) (i : Nat) (p : Point_2)
    (h : K.do_overlap cv1 cv2 = false)
    (hp : (K.intersect cv1 cv2)[i]? = some p)
    (hend : K.point_is_equal (K.source cv1) p = true ∨ K.point_is_equal (K.target cv1) p = true ∨
      K.point_is_equal (K.source cv2) p = true ∨ K.point_is_equal (K.target cv2) p = true) :
    (Intersect_2 K cv1 cv2 oi)[oi.length + i]? = some (Object.point_and_mult p 0) := by
  rw [Intersect_2_getElem?_of_not_overlap K cv1 cv2 oi i h, hp]
  simp [intersection_object_of_endpoint K cv1 cv2 p hend]

/-- C3: for a pair that does not overlap, a candidate point `p` of the kernel's
intersection primitive (the `i`-th one) that equals the source or the target of `cv1` or
of `cv2` is written, at its place in the output, with multiplicity 0, whatever the
multiplicity primitive is; when `p` is the only candidate the output is the one result
`(p, 0)`. -/
theorem Intersect_2_endpoint_multiplicity_zero (K : GAPS Point_2 Segment_2 Input_object_2)
    (cv1 cv2 : Segment_2) (oi : List (Object Point_2 Segment_2)) (i : Nat) (p : Point_2)
    (h : K.do_overlap cv1 cv2 = false)
    (hp : (K.intersect cv1 cv2)[i]? = some p)
    (hend : K.point_is_equal (K.source cv1) p = true ∨ K.point_is_equal (K.target cv1) p = true ∨
      K.point_is_equal (K.source cv2) p = true ∨ K.point_is_equal (K.target cv2) p = true) :
    (Intersect_2 K cv1 cv2 oi)[oi.length + i]? = some (Object.point_and_mult p 0) ∧
    (∀ g, (Intersect_2 { K with multiplicity_of_intersection := g } cv1 cv2 oi)[oi.length + i]? =
      some (Object.point_and_mult p 0)) ∧
    (K.intersect cv1 cv2 = [p] →
      Intersect_2 K cv1 cv2 oi = oi ++ [Object.point_and_mult p 0]) := by
  refine ⟨Intersect_2_getElem?_of_endpoint K cv1 cv2 oi i p h hp hend,
    fun g => Intersect_2_getElem?_of_endpoint { K with multiplicity_of_intersection := g }
      cv1 cv2 oi i p h hp hend, ?_⟩
  intro hone
  rw [Intersect_2_of_not_overlap K cv1 cv2 oi h, hone]
  simp [intersection_object_of_endpoint K cv1 cv2 p hend]

/-- C3 on the rectilinear kernel: the segments from `(0,0)` to `(2,0)` and from `(2,0)` to
`(2,3)` share the endpoint `(2,0)` only; the result is `((2,0), 0)` although the kernel's
multiplicity there is 1. -/
theorem Intersect_2_endpoint_multiplicity_zero_witness :
    rectilinear.intersect (Rect_segment.horizontal 0 0 2) (Rect_segment.vertical 2 0 3) = [(2, 0)] ∧
    rectilinear.multiplicity_of_intersection (Rect_segment.horizontal 0 0 2)
      (Rect_segment.vertical 2 0 3) (2, 0) = 1 ∧
    Intersect_2 rectilinear (Rect_segment.horizontal 0 0 2) (Rect_segment.vertical 2 0 3) [] =
      [] ++ [Object.point_and_mult (2, 0) 0] :=
  ⟨by decide, by decide,
    (Intersect_2_endpoint_multiplicity_zero rectilinear (Rect_segment.horizontal 0 0 2)
      (Rect_segment.vertical 2 0 3) [] 0 (2, 0) (by decide) (by decide)
      (Or.inr (Or.inl (by decide)))).2.2 (by decide)⟩

/-- C4: for a pair that does not overlap, a candidate point `p` of the kernel's
intersection primitive (the `i`-th one) that equals none of the four arc endpoints is
written, at its place in the output, with the multiplicity
`multiplicity_of_intersection(cv1, cv2, p)`; when `p` is the only candidate and the
kernel's multiplicity there is not 0 (a crossing), the output is one point result at
`p`, with a multiplicity that is not 0. -/
theorem Intersect_2_interior_multiplicity (K : GAPS Point_2 Segment_2 Input_object_2)
    (cv1 cv2 : Segment_2) (oi : List (Object Point_2 Segment_2)) (i : Nat) (p : Point_2)
    (h : K.do_overlap cv1 cv2 = false)
    (hp : (K.intersect cv1 cv2)[i]? = some p)
    (h1 : K.point_is_equal (K.source cv1) p = false)
    (h2 : K.point_is_equal (K.target cv1) p = false)
    (h3 : K.point_is_equal (K.source cv2) p = false)
    (h4 : K.point_is_equal (K.target cv2) p = false) :
    (Intersect_2 K cv1 cv2 oi)[oi.length + i]? =
      some (Object.point_and_mult p (K.multiplicity_of_intersection cv1 cv2 p)) ∧
    (K.intersect cv1 cv2 = [p] → K.multiplicity_of_intersection cv1 cv2 p ≠ 0 →
      ∃ m, m ≠ 0 ∧ Intersect_2 K cv1 cv2 oi = oi ++ [Object.point_and_mult p m]) := by
  have hobj := intersection_object_of_not_endpoint K cv1 cv2 p h1 h2 h3 h4
  refine ⟨?_, ?_⟩
  · rw [Intersect_2_getElem?_of_not_overlap K cv1 cv2 oi i h, hp]
    simp [hobj]
  · intro hone hm
    refine ⟨_, hm, ?_⟩
    rw [Intersect_2_of_not_overlap K cv1 cv2 oi h, hone]
    simp [hobj]

/-- C4 on the rectilinear kernel: the segments from `(0,1)` to `(2,1)` and from `(1,0)` to
`(1,2)` cross at `(1,1)`, an endpoint of neither; the result is `((1,1), 1)`. -/
theorem Intersect_2_interior_multiplicity_witness :
    rectilinear.intersect (Rect_segment.horizontal 1 0 2) (Rect_segment.vertical 1 0 2) = [(1, 1)] ∧
    Intersect_2 rectilinear (Rect_segment.horizontal 1 0 2) (Rect_segment.vertical 1 0 2) [] =
      [Object.point_and_mult (1, 1) 1] ∧
    (Intersect_2 rectilinear (Rect_segment.horizontal 1 0 2) (Rect_segment.vertical 1 0 2) [])[0]? =
      some (Object.point_and_mult (1, 1)
        (rectilinear.multiplicity_of_intersection (Rect_segment.horizontal 1 0 2)
          (Rect_segment.vertical 1 0 2) (1, 1))) :=
  ⟨by decide, by decide,
    (Intersect_2_interior_multiplicity rectilinear (Rect_segment.horizontal 1 0 2)
      (Rect_segment.vertical 1 0 2) [] 0 (1, 1) (by decide) (by decide) (by decide) (by decide)
      (by decide) (by decide)).1⟩

/-! ## `Make_x_monotone_2` -/

theorem Make_x_monotone_2_eq (K : GAPS Point_2 Segment_2 Input_object_2)
    (cv : Input_object_2) (oi : List (Object Point_2 Segment_2)) :
    Make_x_monotone_2 K cv oi = oi ++ (K.make_sweepable cv).map (sweepable_object K) := by
  simp [Make_x_monotone_2, foldl_push_eq_append_map]

theorem Make_x_monotone_2_getElem? (K : GAPS Point_2 Segment_2 Input_object_2)
    (cv : Input_object_2) (oi : List (Object Point_2 Segment_2)) (i : Nat) :
    (Make_x_monotone_2 K cv oi)[oi.length + i]? =
      ((K.make_sweepable cv)[i]?).map (sweepable_object K) := by
  rw [Make_x_monotone_2_eq, getElem?_append_map]

theorem sweepable_object_curve (K : GAPS Point_2 Segment_2 Input_object_2)
    (it s : Segment_2) (h : sweepable_object K it = Object.curve s) :
    K.is_degenerate it = false ∧
      ((K.is_reversed it = false ∧ s = it) ∨
       (K.is_reversed it = true ∧
        s = K.new_endpoints_opposite it (K.source it) (K.target it))) := by
  unfold sweepable_object at h
  by_cases hd : K.is_degenerate it = true
  · simp [hd] at h
  · by_cases hr : K.is_reversed it = true
    · simp [hd, hr] at h
      exact ⟨by simpa using hd, Or.inr ⟨hr, h.symm⟩⟩
    · simp [hd, hr] at h
      exact ⟨by simpa using hd, Or.inl ⟨by simpa using hr, h.symm⟩⟩

theorem curve_mem_Make_x_monotone_2 (K : GAPS Point_2 Segment_2 Input_object_2)
    (cv : Input_object_2) (s : Segment_2)
    (h : Object.curve s ∈ Make_x_monotone_2 K cv []) :
    ∃ it, it ∈ K.make_sweepable cv ∧ sweepable_object K it = Object.curve s := by
  rw [Make_x_monotone_2_eq] at h
  simpa using h

theorem oriented_of_sweepable_object (CK : Curve_kernel_2 Point_2)
    (K : GAPS Point_2 Segment_2 Input_object_2)
    (hswap : opposite_swaps_endpoints K) (hrev : reversed_iff_larger CK K)
    (hanti : compare_xy_antisymmetric CK) (it s : Segment_2)
    (h : sweepable_object K it = Object.curve s) :
    CK.compare_xy (K.source s) (K.target s) ≠ Comparison_result.LARGER := by
  rcases (sweepable_object_curve K it s h).2 with ⟨hr, rfl⟩ | ⟨hr, rfl⟩
  · intro hl
    rw [(hrev s).2 hl] at hr
    exact Bool.noConfusion hr
  · rw [(hswap it).1, (hswap it).2, hanti _ _ ((hrev it).1 hr)]
    decide

/-- C5: with a rebuild that swaps the endpoints it is given, `is_reversed` meaning that
the source is LARGER than the target, and an antisymmetric `compare_xy`, every arc piece
`Make_x_monotone_2` writes is oriented from its minimal to its maximal endpoint: its
source is not LARGER than its target under `compare_xy`, for a candidate that was
reversed as for one that was not. -/
theorem Make_x_monotone_2_oriented (CK : Curve_kernel_2 Point_2)
    (K : GAPS Point_2 Segment_2 Input_object_2)
    (hswap : opposite_swaps_endpoints K) (hrev : reversed_iff_larger CK K)
    (hanti : compare_xy_antisymmetric CK) (cv : Input_object_2) :
    (∀ s, Object.curve s ∈ Make_x_monotone_2 K cv [] →
      Compare_xy_2 CK (K.source s) (K.target s) ≠ Comparison_result.LARGER) ∧
    (∀ oi i it, (K.make_sweepable cv)[i]? = some it → K.is_degenerate it = false →
      ∃ s, (Make_x_monotone_2 K cv oi)[oi.length + i]? = some (Object.curve s) ∧
        Compare_xy_2 CK (K.source s) (K.target s) ≠ Comparison_result.LARGER) := by
  refine ⟨?_, ?_⟩
  · intro s hs
    obtain ⟨it, _, hit⟩ := curve_mem_Make_x_monotone_2 K cv s hs
    exact oriented_of_sweepable_object CK K hswap hrev hanti it s hit
  · intro oi i it hi hd
    rw [Make_x_monotone_2_getElem?, hi]
    by_cases hr : K.is_reversed it = true
    · refine ⟨K.new_endpoints_opposite it (K.source it) (K.target it), ?_, ?_⟩
      · simp [sweepable_object, hd, hr]
      · exact oriented_of_sweepable_object CK K hswap hrev hanti it _
          (by simp [sweepable_object, hd, hr])
    · refine ⟨it, ?_, ?_⟩
      · simp [sweepable_object, hd, hr]
      · exact oriented_of_sweepable_object CK K hswap hrev hanti it _
          (by simp [sweepable_object, hd, hr])

theorem lattice_compare_xy_cases (p q : Lattice_point) :
    (lattice_kernel.compare_xy p q = Comparison_result.SMALLER ↔
      (p.1 < q.1 ∨ (p.1 = q.1 ∧ p.2 < q.2))) ∧
    (lattice_kernel.compare_xy p q = Comparison_result.EQUAL ↔ (p.1 = q.1 ∧ p.2 = q.2)) ∧
    (lattice_kernel.compare_xy p q = Comparison_result.LARGER ↔
      (q.1 < p.1 ∨ (p.1 = q.1 ∧ q.2 < p.2))) := by
  simp only [lattice_kernel, compare_int]
  by_cases h1 : p.1 < q.1
  · simp [h1]; omega
  · by_cases h2 : p.1 = q.1
    · by_cases h3 : p.2 < q.2
      · simp [h2, h3]; omega
      · by_cases h4 : p.2 = q.2
        · simp [h2, h4]
        · simp [h2, h3, h4]; omega
    · simp [h1, h2]; omega

theorem lattice_less_xy_iff (p q : Lattice_point) :
    lattice_less_xy p q = true ↔ (p.1 < q.1 ∨ (p.1 = q.1 ∧ p.2 < q.2)) := by
  simp [lattice_less_xy]

theorem lattice_compare_xy_antisymmetric : compare_xy_antisymmetric lattice_kernel := by
  intro p q h
  rw [(lattice_compare_xy_cases p q).2.2] at h
  rw [(lattice_compare_xy_cases q p).1]
  omega

theorem rectilinear_opposite_swaps_endpoints : opposite_swaps_endpoints rectilinear := by
  intro s
  cases s <;> exact ⟨rfl, rfl⟩

theorem rectilinear_reversed_iff_larger : reversed_iff_larger lattice_kernel rectilinear := by
  intro s
  show lattice_less_xy s.target s.source = true ↔ _
  rw [lattice_less_xy_iff, (lattice_compare_xy_cases _ _).2.2]
  cases s <;> simp [rectilinear, Rect_segment.source, Rect_segment.target]

theorem rectilinear_degenerate_iff_equal : degenerate_iff_equal lattice_kernel rectilinear := by
  intro s
  show decide (s.source = s.target) = true ↔ _
  rw [(lattice_compare_xy_cases _ _).2.1]
  cases s <;> simp [rectilinear, Rect_segment.source, Rect_segment.target, Prod.ext_iff]

/-- C5 on the rectilinear kernel: a curve of four candidates, the second and the fourth
reversed, the third degenerate; the pieces written are oriented from left to right. -/
theorem Make_x_monotone_2_oriented_witness :
    Make_x_monotone_2 rectilinear
        [Rect_segment.horizontal 1 0 2, Rect_segment.horizontal 1 2 0,
         Rect_segment.vertical 3 4 4, Rect_segment.vertical 3 5 4] [] =
      [Object.curve (Rect_segment.horizontal 1 0 2), Object.curve (Rect_segment.horizontal 1 0 2),
       Object.point (3, 4), Object.curve (Rect_segment.vertical 3 4 5)] ∧
    Compare_xy_2 lattice_kernel (rectilinear.source (Rect_segment.vertical 3 4 5))
      (rectilinear.target (Rect_segment.vertical 3 4 5)) ≠ Comparison_result.LARGER :=
  ⟨by decide,
    (Make_x_monotone_2_oriented lattice_kernel rectilinear rectilinear_opposite_swaps_endpoints
      rectilinear_reversed_iff_larger lattice_compare_xy_antisymmetric
      [Rect_segment.horizontal 1 0 2, Rect_segment.horizontal 1 2 0,
       Rect_segment.vertical 3 4 4, Rect_segment.vertical 3 5 4]).1
      (Rect_segment.vertical 3 4 5) (by decide)⟩

/-- C6: with a rebuild that swaps the endpoints it is given, `is_degenerate` meaning that
source and target compare EQUAL, `is_reversed` meaning that the source is LARGER than the
target, and an antisymmetric `compare_xy`: no arc piece `Make_x_monotone_2` writes has
equal endpoints; a degenerate candidate is written as a point, its source; and a
candidate written as an arc piece is not degenerate. -/
theorem Make_x_monotone_2_no_degenerate_arc (CK : Curve_kernel_2 Point_2)
    (K : GAPS Point_2 Segment_2 Input_object_2)
    (hswap : opposite_swaps_endpoints K) (hrev : reversed_iff_larger CK K)
    (hdeg : degenerate_iff_equal CK K) (hanti : compare_xy_antisymmetric CK)
    (cv : Input_object_2) :
    (∀ s, Object.curve s ∈ Make_x_monotone_2 K cv [] →
      Equal_2_points CK false (K.source s) (K.target s) = false) ∧
    (∀ oi i it, (K.make_sweepable cv)[i]? = some it → K.is_degenerate it = true →
      (Make_x_monotone_2 K cv oi)[oi.length + i]? = some (Object.point (K.source it))) ∧
    (∀ oi i it s, (K.make_sweepable cv)[i]? = some it →
      (Make_x_monotone_2 K cv oi)[oi.length + i]? = some (Object.curve s) →
      K.is_degenerate it = false) := by
  refine ⟨?_, ?_, ?_⟩
  · intro s hs
    obtain ⟨it, _, hit⟩ := curve_mem_Make_x_monotone_2 K cv s hs
    obtain ⟨hd, ⟨hr, rfl⟩ | ⟨hr, rfl⟩⟩ := sweepable_object_curve K it s hit
    · have hne : CK.compare_xy (K.source s) (K.target s) ≠ Comparison_result.EQUAL := by
        intro he
        rw [(hdeg s).2 he] at hd
        exact Bool.noConfusion hd
      simp [Equal_2_points, hne]
    · have hsm := hanti _ _ ((hrev it).1 hr)
      simp [Equal_2_points, (hswap it).1, (hswap it).2, hsm]
  · intro oi i it hi hd
    rw [Make_x_monotone_2_getElem?, hi]
    simp [sweepable_object, hd]
  · intro oi i it s hi hs
    rw [Make_x_monotone_2_getElem?, hi] at hs
    simp only [Option.map_some', Option.some.injEq] at hs
    exact (sweepable_object_curve K it s hs).1

/-- C6 on the rectilinear kernel: the degenerate candidate at `(3,4)` is written as a
point, and the arc piece written has two different endpoints. -/
theorem Make_x_monotone_2_no_degenerate_arc_witness :
    (Make_x_monotone_2 rectilinear
        [Rect_segment.horizontal 1 2 0, Rect_segment.vertical 3 4 4] [])[0 + 1]? =
      some (Object.point (3, 4)) ∧
    Equal_2_points lattice_kernel false (rectilinear.source (Rect_segment.horizontal 1 0 2))
      (rectilinear.target (Rect_segment.horizontal 1 0 2)) = false :=
  ⟨(Make_x_monotone_2_no_degenerate_arc lattice_kernel rectilinear
      rectilinear_opposite_swaps_endpoints rectilinear_reversed_iff_larger
      rectilinear_degenerate_iff_equal lattice_compare_xy_antisymmetric
      [Rect_segment.horizontal 1 2 0, Rect_segment.vertical 3 4 4]).2.1
      [] 1 (Rect_segment.vertical 3 4 4) (by decide) (by decide),
   (Make_x_monotone_2_no_degenerate_arc lattice_kernel rectilinear
      rectilinear_opposite_swaps_endpoints rectilinear_reversed_iff_larger
      rectilinear_degenerate_iff_equal lattice_compare_xy_antisymmetric
      [Rect_segment.horizontal 1 2 0, Rect_segment.vertical 3 4 4]).1
      (Rect_segment.horizontal 1 0 2) (by decide)⟩

/-- C7: a candidate segment `it` of `Make_x_monotone_2` that is not degenerate is written
as `it` itself when it is not reversed; when it is reversed, the piece written is the
rebuild `new_endpoints_opposite(it, source(it), target(it))`, whose source is the target
of `it` and whose target is the source of `it` for a rebuild that swaps the endpoints it
is given. -/
theorem Make_x_monotone_2_reversed_rebuilt (K : GAPS Point_2 Segment_2 Input_object_2)
    (cv : Input_object_2) (oi : List (Object Point_2 Segment_2)) (i : Nat) (it : Segment_2)
    (hi : (K.make_sweepable cv)[i]? = some it) (hd : K.is_degenerate it = false) :
    (K.is_reversed it = false →
      (Make_x_monotone_2 K cv oi)[oi.length + i]? = some (Object.curve it)) ∧
    (K.is_reversed it = true →
      ∃ s, (Make_x_monotone_2 K cv oi)[oi.length + i]? = some (Object.curve s) ∧
        s = K.new_endpoints_opposite it (K.source it) (K.target it) ∧
        (opposite_swaps_endpoints K → K.source s = K.target it ∧ K.target s = K.source it)) := by
  refine ⟨?_, ?_⟩
  · intro hr
    rw [Make_x_monotone_2_getElem?, hi]
    simp [sweepable_object, hd, hr]
  · intro hr
    refine ⟨_, ?_, rfl, fun hswap => hswap it⟩
    rw [Make_x_monotone_2_getElem?, hi]
    simp [sweepable_object, hd, hr]

/-- C7 on the rectilinear kernel: the reversed candidate from `(2,1)` to `(0,1)` is
written as its rebuild, which runs from `(0,1)` to `(2,1)`. -/
theorem Make_x_monotone_2_reversed_rebuilt_witness :
    rectilinear.is_reversed (Rect_segment.horizontal 1 2 0) = true ∧
    rectilinear.source (Rect_segment.horizontal 1 2 0) = (2, 1) ∧
    rectilinear.target (Rect_segment.horizontal 1 2 0) = (0, 1) ∧
    ∃ s, (Make_x_monotone_2 rectilinear
        [Rect_segment.horizontal 1 2 0, Rect_segment.vertical 3 4 4] [])[0 + 0]? =
          some (Object.curve s) ∧
      s = rectilinear.new_endpoints_opposite (Rect_segment.horizontal 1 2 0)
        (rectilinear.source (Rect_segment.horizontal 1 2 0))
        (rectilinear.target (Rect_segment.horizontal 1 2 0)) ∧
      (opposite_swaps_endpoints rectilinear →
        rectilinear.source s = rectilinear.target (Rect_segment.horizontal 1 2 0) ∧
        rectilinear.target s = rectilinear.source (Rect_segment.horizontal 1 2 0)) :=
  ⟨by decide, by decide, by decide,
    (Make_x_monotone_2_reversed_rebuilt rectilinear
      [Rect_segment.horizontal 1 2 0, Rect_segment.vertical 3 4 4] [] 0
      (Rect_segment.horizontal 1 2 0) (by decide) (by decide)).2 (by decide)⟩

/-! ## `Construct_min_vertex_2`, `Construct_max_vertex_2`, `Split_2`, `Merge_2` -/

theorem CGAL_precondition_bind {α : Type} (cond : Bool) (a : α) :
    (CGAL_precondition cond >>= fun _ => (Except.ok a : Except Failure α)) =
      if cond then Except.ok a else Except.error Failure.precondition_violation := by
  cases cond <;> rfl

/-- C8: `Construct_min_vertex_2` (resp. `Construct_max_vertex_2`) returns the minimal
(resp. maximal) curve end of the arc when that end has no boundary in `x` and none in `y`,
and fails with a precondition violation exactly when that end lies at minus or plus
infinity in `x` or in `y`. -/
theorem Construct_vertex_2_finite_or_violation {Point_2 Arc_2 : Type}
    (A : Arc_2_methods Point_2 Arc_2) (cv : Arc_2) :
    ((A.get_boundary_in_x cv Curve_end.MIN_END = Boundary_type.NO_BOUNDARY ∧
        A.get_boundary_in_y cv Curve_end.MIN_END = Boundary_type.NO_BOUNDARY) →
      Construct_min_vertex_2 A cv = Except.ok (A.get_curve_end cv Curve_end.MIN_END)) ∧
    (Construct_min_vertex_2 A cv = Except.error Failure.precondition_violation ↔
      ((A.get_boundary_in_x cv Curve_end.MIN_END = Boundary_type.MINUS_INFINITY ∨
        A.get_boundary_in_x cv Curve_end.MIN_END = Boundary_type.PLUS_INFINITY) ∨
       (A.get_boundary_in_y cv Curve_end.MIN_END = Boundary_type.MINUS_INFINITY ∨
        A.get_boundary_in_y cv Curve_end.MIN_END = Boundary_type.PLUS_INFINITY))) ∧
    ((∃ e, Construct_min_vertex_2 A cv = Except.error e) ↔
      Construct_min_vertex_2 A cv = Except.error Failure.precondition_violation) ∧
    ((A.get_boundary_in_x cv Curve_end.MAX_END = Boundary_type.NO_BOUNDARY ∧
        A.get_boundary_in_y cv Curve_end.MAX_END = Boundary_type.NO_BOUNDARY) →
      Construct_max_vertex_2 A cv = Except.ok (A.get_curve_end cv Curve_end.MAX_END)) ∧
    (Construct_max_vertex_2 A cv = Except.error Failure.precondition_violation ↔
      ((A.get_boundary_in_x cv Curve_end.MAX_END = Boundary_type.MINUS_INFINITY ∨
        A.get_boundary_in_x cv Curve_end.MAX_END = Boundary_type.PLUS_INFINITY) ∨
       (A.get_boundary_in_y cv Curve_end.MAX_END = Boundary_type.MINUS_INFINITY ∨
        A.get_boundary_in_y cv Curve_end.MAX_END = Boundary_type.PLUS_INFINITY))) ∧
    ((∃ e, Construct_max_vertex_2 A cv = Except.error e) ↔
      Construct_max_vertex_2 A cv = Except.error Failure.precondition_violation) := by
  simp only [Construct_min_vertex_2, Construct_max_vertex_2, CGAL_precondition_bind]
  refine ⟨?_, ?_, ?_, ?_, ?_, ?_⟩
  · rintro ⟨hx, hy⟩
    simp [hx, hy]
  · cases A.get_boundary_in_x cv Curve_end.MIN_END <;>
      cases A.get_boundary_in_y cv Curve_end.MIN_END <;> simp
  · cases A.get_boundary_in_x cv Curve_end.MIN_END <;>
      cases A.get_boundary_in_y cv Curve_end.MIN_END <;> simp
  · rintro ⟨hx, hy⟩
    simp [hx, hy]
  · cases A.get_boundary_in_x cv Curve_end.MAX_END <;>
      cases A.get_boundary_in_y cv Curve_end.MAX_END <;> simp
  · cases A.get_boundary_in_x cv Curve_end.MAX_END <;>
      cases A.get_boundary_in_y cv Curve_end.MAX_END <;> simp

theorem spec_split_of_interior {Curve : Type} [DecidableEq Curve]
    (on_curve : Curve → Lattice_point → Bool) (cv : Spec_arc Curve) (p : Lattice_point)
    (h : Spec_arc.strictly_interior on_curve cv p = true) :
    Split_2 (spec_arcs on_curve) cv p =
      Except.ok ({ cv with max_end := Spec_end.of_point p },
                 { cv with min_end := Spec_end.of_point p }) := by
  show Spec_arc.split on_curve cv p = _
  unfold Spec_arc.split
  rw [CGAL_precondition_bind, h]
  rfl

theorem spec_max_vertex_of_point {Curve : Type} [DecidableEq Curve]
    (on_curve : Curve → Lattice_point → Bool) (cv : Spec_arc Curve) (p : Lattice_point)
    (h : cv.max_end = Spec_end.of_point p) :
    Construct_max_vertex_2 (spec_arcs on_curve) cv = Except.ok p := by
  simp [Construct_max_vertex_2, CGAL_precondition_bind, spec_arcs, Spec_arc.curve_end, h,
    Spec_end.of_point, Spec_coordinate.boundary, Spec_end.point, Spec_coordinate.value]

theorem spec_min_vertex_of_point {Curve : Type} [DecidableEq Curve]
    (on_curve : Curve → Lattice_point → Bool) (cv : Spec_arc Curve) (p : Lattice_point)
    (h : cv.min_end = Spec_end.of_point p) :
    Construct_min_vertex_2 (spec_arcs on_curve) cv = Except.ok p := by
  simp [Construct_min_vertex_2, CGAL_precondition_bind, spec_arcs, Spec_arc.curve_end, h,
    Spec_end.of_point, Spec_coordinate.boundary, Spec_end.point, Spec_coordinate.value]

/-- C9: on the arcs of the specification, for a point `p` that lies on the arc `cv` and
is none of its endpoints, `Split_2` returns a pair `(c1, c2)` with
`Construct_max_vertex_2 c1 = p` and `Construct_min_vertex_2 c2 = p`; `c1` keeps the
minimal end of `cv` and `c2` its maximal end. -/
theorem Split_2_vertices_at_point {Curve : Type} [DecidableEq Curve]
    (on_curve : Curve → Lattice_point → Bool) (cv : Spec_arc Curve) (p : Lattice_point)
    (h : Spec_arc.strictly_interior on_curve cv p = true) :
    ∃ c1 c2, Split_2 (spec_arcs on_curve) cv p = Except.ok (c1, c2) ∧
      Construct_max_vertex_2 (spec_arcs on_curve) c1 = Except.ok p ∧
      Construct_min_vertex_2 (spec_arcs on_curve) c2 = Except.ok p ∧
      c1.min_end = cv.min_end ∧ c2.max_end = cv.max_end ∧
      c1.curve = cv.curve ∧ c2.curve = cv.curve :=
  ⟨_, _, spec_split_of_interior on_curve cv p h,
    spec_max_vertex_of_point on_curve _ p rfl, spec_min_vertex_of_point on_curve _ p rfl,
    rfl, rfl, rfl, rfl⟩

/-- C9 on the arcs of the specification: the arc `x ∈ [0,5]` of the line `y = 0` split at
`(2,0)` gives the arcs `x ∈ [0,2]` and `x ∈ [2,5]`. -/
theorem Split_2_vertices_at_point_witness :
    Spec_arc.strictly_interior on_line (x_axis_arc 0 5) (2, 0) = true ∧
    Split_2 (spec_arcs on_line) (x_axis_arc 0 5) (2, 0) =
      Except.ok (x_axis_arc 0 2, x_axis_arc 2 5) ∧
    Construct_max_vertex_2 (spec_arcs on_line) (x_axis_arc 0 2) = Except.ok (2, 0) ∧
    Construct_min_vertex_2 (spec_arcs on_line) (x_axis_arc 2 5) = Except.ok (2, 0) ∧
    ∃ c1 c2, Split_2 (spec_arcs on_line) (x_axis_arc 0 5) (2, 0) = Except.ok (c1, c2) ∧
      Construct_max_vertex_2 (spec_arcs on_line) c1 = Except.ok (2, 0) ∧
      Construct_min_vertex_2 (spec_arcs on_line) c2 = Except.ok (2, 0) ∧
      c1.min_end = (x_axis_arc 0 5).min_end ∧ c2.max_end = (x_axis_arc 0 5).max_end ∧
      c1.curve = (x_axis_arc 0 5).curve ∧ c2.curve = (x_axis_arc 0 5).curve :=
  ⟨by decide, rfl, rfl, rfl,
    Split_2_vertices_at_point on_line (x_axis_arc 0 5) (2, 0) (by decide)⟩

/-- C11: on the arcs of the specification, for a pair of arcs with
`Are_mergeable_2` false, `Merge_2` fails with a precondition violation and returns no
arc.  The check is the one of `Arc_2::merge`: `Merge_2` itself adds none, it returns what
`merge` returns for every implementation of the methods of `Arc_2`. -/
theorem Merge_2_not_mergeable_violation {Curve : Type} [DecidableEq Curve]
    (on_curve : Curve → Lattice_point → Bool) (a1 a2 : Spec_arc Curve)
    (h : Are_mergeable_2 (spec_arcs on_curve) a1 a2 = false) :
    Merge_2 (spec_arcs on_curve) a1 a2 = Except.error Failure.precondition_violation ∧
    (∀ c, Merge_2 (spec_arcs on_curve) a1 a2 ≠ Except.ok c) ∧
    (∀ (A : Arc_2_methods Lattice_point (Spec_arc Curve)) (cv1 cv2 : Spec_arc Curve),
      Merge_2 A cv1 cv2 = A.merge cv1 cv2) := by
  have h' : Spec_arc.are_mergeable a1 a2 = false := h
  have hm : Merge_2 (spec_arcs on_curve) a1 a2 =
      Except.error Failure.precondition_violation := by
    show Spec_arc.merge a1 a2 = _
    unfold Spec_arc.merge
    rw [CGAL_precondition_bind, h']
    rfl
  refine ⟨hm, ?_, fun _ _ _ => rfl⟩
  intro c hc
  rw [hm] at hc
  exact Except.noConfusion hc

/-- C11 on the arcs of the specification: the arcs `x ∈ [0,2]` and `x ∈ [3,5]` of the
line `y = 0` share no endpoint; merging them is a precondition violation. -/
theorem Merge_2_not_mergeable_violation_witness :
    Are_mergeable_2 (spec_arcs on_line) (x_axis_arc 0 2) (x_axis_arc 3 5) = false ∧
    Merge_2 (spec_arcs on_line) (x_axis_arc 0 2) (x_axis_arc 3 5) =
      Except.error Failure.precondition_violation :=
  ⟨by decide,
    (Merge_2_not_mergeable_violation on_line (x_axis_arc 0 2) (x_axis_arc 3 5)
      (by decide)).1⟩

/-- C12: on the arcs of the specification, for an arc `cv` and a point `p` that is one
of the endpoints of `cv` or does not lie on `cv`, `Split_2` fails with a precondition
violation and returns no arcs.  The check is the one of `Arc_2::split`: `Split_2` itself
adds none. -/
theorem Split_2_not_interior_violation {Curve : Type} [DecidableEq Curve]
    (on_curve : Curve → Lattice_point → Bool) (cv : Spec_arc Curve) (p : Lattice_point)
    (h : Spec_end.of_point p = cv.min_end ∨ Spec_end.of_point p = cv.max_end ∨
      Spec_arc.lies_on on_curve cv p = false) :
    Split_2 (spec_arcs on_curve) cv p = Except.error Failure.precondition_violation ∧
    (∀ c, Split_2 (spec_arcs on_curve) cv p ≠ Except.ok c) ∧
    (∀ (A : Arc_2_methods Lattice_point (Spec_arc Curve)) (cv' : Spec_arc Curve)
      (q : Lattice_point), Split_2 A cv' q = A.split cv' q) := by
  have hint : Spec_arc.strictly_interior on_curve cv p = false := by
    unfold Spec_arc.strictly_interior
    rcases h with h | h | h <;> simp [h]
  have hs : Split_2 (spec_arcs on_curve) cv p =
      Except.error Failure.precondition_violation := by
    show Spec_arc.split on_curve cv p = _
    unfold Spec_arc.split
    rw [CGAL_precondition_bind, hint]
    rfl
  refine ⟨hs, ?_, fun _ _ _ => rfl⟩
  intro c hc
  rw [hs] at hc
  exact Except.noConfusion hc

/-- C12 on the arcs of the specification: splitting the arc `x ∈ [0,5]` of the line
`y = 0` at its endpoint `(0,0)`, at its endpoint `(5,0)`, at `(2,1)` off the line or at
`(7,0)` beyond its maximal end is a precondition violation. -/
theorem Split_2_not_interior_violation_witness :
    Split_2 (spec_arcs on_line) (x_axis_arc 0 5) (0, 0) =
      Except.error Failure.precondition_violation ∧
    Split_2 (spec_arcs on_line) (x_axis_arc 0 5) (5, 0) =
      Except.error Failure.precondition_violation ∧
    Split_2 (spec_arcs on_line) (x_axis_arc 0 5) (2, 1) =
      Except.error Failure.precondition_violation ∧
    Split_2 (spec_arcs on_line) (x_axis_arc 0 5) (7, 0) =
      Except.error Failure.precondition_violation :=
  ⟨(Split_2_not_interior_violation on_line (x_axis_arc 0 5) (0, 0) (Or.inl rfl)).1,
   (Split_2_not_interior_violation on_line (x_axis_arc 0 5) (5, 0) (Or.inr (Or.inl rfl))).1,
   (Split_2_not_interior_violation on_line (x_axis_arc 0 5) (2, 1)
      (Or.inr (Or.inr (by decide)))).1,
   (Split_2_not_interior_violation on_line (x_axis_arc 0 5) (7, 0)
      (Or.inr (Or.inr (by decide)))).1⟩

/-- C13: with a `compare_xy` that gives EQUAL for a point and itself, `Equal_2` on points
is true exactly when `Compare_xy_2` gives EQUAL, whether the address test succeeded
(which it does only for one and the same point) or not; so the result with the
short-circuit is the result without it. -/
theorem Equal_2_points_iff_compare_xy (CK : Curve_kernel_2 Point_2) (same_object : Bool)
    (p1 p2 : Point_2) (hrefl : compare_xy_reflexive CK)
    (hsame : same_object = true → p1 = p2) :
    (Equal_2_points CK same_object p1 p2 = true ↔
      Compare_xy_2 CK p1 p2 = Comparison_result.EQUAL) ∧
    Equal_2_points CK same_object p1 p2 = Equal_2_points CK false p1 p2 := by
  cases same_object with
  | false => simp [Equal_2_points, Compare_xy_2]
  | true =>
    have hp : p1 = p2 := hsame rfl
    subst hp
    simp [Equal_2_points, Compare_xy_2, hrefl p1]

theorem lattice_compare_xy_reflexive : compare_xy_reflexive lattice_kernel := by
  intro p
  rw [(lattice_compare_xy_cases p p).2.1]
  exact ⟨rfl, rfl⟩

/-- C13 on the lattice kernel: the point `(1,2)` passed twice, with the address test
succeeding, is equal to itself, as `compare_xy` says; `(1,2)` and `(1,3)` are not. -/
theorem Equal_2_points_iff_compare_xy_witness :
    Equal_2_points lattice_kernel true (1, 2) (1, 2) =
      Equal_2_points lattice_kernel false (1, 2) (1, 2) ∧
    Equal_2_points lattice_kernel true (1, 2) (1, 2) = true ∧
    Compare_xy_2 lattice_kernel (1, 2) (1, 2) = Comparison_result.EQUAL ∧
    Equal_2_points lattice_kernel false (1, 2) (1, 3) = false :=
  ⟨(Equal_2_points_iff_compare_xy lattice_kernel true (1, 2) (1, 2)
      lattice_compare_xy_reflexive (fun _ => rfl)).2,
    by decide, by decide, by decide⟩

/-- C14: `Infinite_in_x_2` and `Infinite_in_y_2` fail for every arc and every end
selector, with the error "The functor is considered deprecated ?!"; neither returns a
boundary classification. -/
theorem Infinite_in_x_y_2_always_fail {Arc_2 : Type} (cv : Arc_2) (e : Curve_end) :
    Infinite_in_x_2 cv e =
      Except.error (Failure.error "The functor is considered deprecated ?!") ∧
    Infinite_in_y_2 cv e =
      Except.error (Failure.error "The functor is considered deprecated ?!") ∧
    (∀ b, Infinite_in_x_2 cv e ≠ Except.ok b) ∧
    (∀ b, Infinite_in_y_2 cv e ≠ Except.ok b) := by
  refine ⟨rfl, rfl, ?_, ?_⟩ <;>
  · intro b hb
    exact Except.noConfusion hb

/-! ## How many objects are written, and of which kind -/

/-- C15 as stated fails: the arc `x ∈ [-2,2]` of the parabola `y = x * x` and the arc
`x ∈ [-2,2]` of the line `y = 1` do not overlap and meet at `(-1,1)` and `(1,1)`;
`Intersect_2` writes two results. -/
theorem Intersect_2_two_results :
    parabolic.do_overlap (Parabola_arc.parabola (-2) 2) (Parabola_arc.level 1 (-2) 2) = false ∧
    parabolic.intersect (Parabola_arc.parabola (-2) 2) (Parabola_arc.level 1 (-2) 2) =
      [(-1, 1), (1, 1)] ∧
    Intersect_2 parabolic (Parabola_arc.parabola (-2) 2) (Parabola_arc.level 1 (-2) 2) [] =
      [Object.point_and_mult (-1, 1) 1, Object.point_and_mult (1, 1) 1] ∧
    ¬ (Intersect_2 parabolic (Parabola_arc.parabola (-2) 2)
        (Parabola_arc.level 1 (-2) 2) []).length ≤ 1 :=
  ⟨by decide, by decide, by decide, by decide⟩

/-- C15 (amended): `Intersect_2` writes a single object when the arcs overlap, and one
object for each candidate point of the kernel's intersection primitive when they do
not; so the output holds at most one result whenever that primitive returns at most
one point. -/
theorem Intersect_2_result_count (K : GAPS Point_2 Segment_2 Input_object_2)
    (cv1 cv2 : Segment_2) (oi : List (Object Point_2 Segment_2)) :
    (K.do_overlap cv1 cv2 = true →
      (Intersect_2 K cv1 cv2 oi).length = oi.length + 1) ∧
    (K.do_overlap cv1 cv2 = false →
      (Intersect_2 K cv1 cv2 oi).length = oi.length + (K.intersect cv1 cv2).length) ∧
    ((K.intersect cv1 cv2).length ≤ 1 → (Intersect_2 K cv1 cv2 []).length ≤ 1) := by
  refine ⟨?_, ?_, ?_⟩
  · intro h
    simp [Intersect_2_of_overlap K cv1 cv2 oi h]
  · intro h
    simp [Intersect_2_of_not_overlap K cv1 cv2 oi h]
  · intro hle
    by_cases h : K.do_overlap cv1 cv2 = true
    · simp [Intersect_2_of_overlap K cv1 cv2 [] h]
    · have h' : K.do_overlap cv1 cv2 = false := by simpa using h
      simpa [Intersect_2_of_not_overlap K cv1 cv2 [] h'] using hle

/-- C15 (amended) on the rectilinear kernel: the segments from `(0,1)` to `(2,1)` and
from `(1,0)` to `(1,2)` have one candidate point and one result is written. -/
theorem Intersect_2_result_count_witness :
    (rectilinear.intersect (Rect_segment.horizontal 1 0 2)
      (Rect_segment.vertical 1 0 2)).length ≤ 1 ∧
    (Intersect_2 rectilinear (Rect_segment.horizontal 1 0 2)
      (Rect_segment.vertical 1 0 2) []).length ≤ 1 :=
  ⟨by decide,
    (Intersect_2_result_count rectilinear (Rect_segment.horizontal 1 0 2)
      (Rect_segment.vertical 1 0 2) []).2.2 (by decide)⟩

theorem sweepable_object_cases (K : GAPS Point_2 Segment_2 Input_object_2)
    (it : Segment_2) :
    (K.is_degenerate it = true ∧ sweepable_object K it = Object.point (K.source it)) ∨
    (K.is_degenerate it = false ∧ ∃ s, sweepable_object K it = Object.curve s) := by
  unfold sweepable_object
  by_cases hd : K.is_degenerate it = true
  · exact Or.inl ⟨hd, by simp [hd]⟩
  · by_cases hr : K.is_reversed it = true
    · exact Or.inr ⟨by simpa using hd,
        K.new_endpoints_opposite it (K.source it) (K.target it), by simp [hd, hr]⟩
    · exact Or.inr ⟨by simpa using hd, it, by simp [hd, hr]⟩

/-- C16 as stated fails: for the input curve made of the degenerate candidate at `(3,4)`
and a candidate from `(0,1)` to `(2,1)`, `Make_x_monotone_2` writes a point first, which
wraps no x-monotone curve. -/
theorem Make_x_monotone_2_writes_point :
    Make_x_monotone_2 rectilinear
        [Rect_segment.vertical 3 4 4, Rect_segment.horizontal 1 0 2] [] =
      [Object.point (3, 4), Object.curve (Rect_segment.horizontal 1 0 2)] ∧
    ¬ (∀ o ∈ Make_x_monotone_2 rectilinear
        [Rect_segment.vertical 3 4 4, Rect_segment.horizontal 1 0 2] [],
        ∃ s, o = Object.curve s) := by
  refine ⟨by decide, ?_⟩
  intro h
  obtain ⟨s, hs⟩ := h (Object.point (3, 4)) (by decide)
  exact Object.noConfusion hs

/-- C16 (amended): every object `Make_x_monotone_2` writes wraps an x-monotone curve
or, for a degenerate candidate, a point, the source of that candidate; none is a point
with multiplicity; and all wrap x-monotone curves when no candidate is degenerate. -/
theorem Make_x_monotone_2_curve_or_point (K : GAPS Point_2 Segment_2 Input_object_2)
    (cv : Input_object_2) :
    (∀ o ∈ Make_x_monotone_2 K cv [],
      (∃ s, o = Object.curve s) ∨
      (∃ it ∈ K.make_sweepable cv, K.is_degenerate it = true ∧
        o = Object.point (K.source it))) ∧
    (∀ o ∈ Make_x_monotone_2 K cv [], ∀ p m, o ≠ Object.point_and_mult p m) ∧
    ((∀ it ∈ K.make_sweepable cv, K.is_degenerate it = false) →
      ∀ o ∈ Make_x_monotone_2 K cv [], ∃ s, o = Object.curve s) := by
  have key : ∀ o ∈ Make_x_monotone_2 K cv [],
      ∃ it ∈ K.make_sweepable cv, sweepable_object K it = o := by
    intro o ho
    rw [Make_x_monotone_2_eq] at ho
    simpa using ho
  refine ⟨?_, ?_, ?_⟩
  · intro o ho
    obtain ⟨it, hit, rfl⟩ := key o ho
    rcases sweepable_object_cases K it with ⟨hd, hp⟩ | ⟨_, s, hs⟩
    · exact Or.inr ⟨it, hit, hd, hp⟩
    · exact Or.inl ⟨s, hs⟩
  · intro o ho p m
    obtain ⟨it, _, rfl⟩ := key o ho
    rcases sweepable_object_cases K it with ⟨_, hp⟩ | ⟨_, s, hs⟩
    · simp [hp]
    · simp [hs]
  · intro hnd o ho
    obtain ⟨it, hit, rfl⟩ := key o ho
    rcases sweepable_object_cases K it with ⟨hd, _⟩ | ⟨_, s, hs⟩
    · rw [hnd it hit] at hd
      exact Bool.noConfusion hd
    · exact ⟨s, hs⟩

/-- C17: for a pair that does not overlap, `Intersect_2` writes, after what the output
held, one point with multiplicity for each candidate point of the kernel's intersection
primitive, in the order of the candidates and with the candidate as its point; it writes
no sub-curve; the number of results is the number of candidates, none when there is no
candidate. -/
theorem Intersect_2_one_result_per_candidate (K : GAPS Point_2 Segment_2 Input_object_2)
    (cv1 cv2 : Segment_2) (oi : List (Object Point_2 Segment_2))
    (h : K.do_overlap cv1 cv2 = false) :
    (∃ f : Point_2 → Nat, Intersect_2 K cv1 cv2 oi =
      oi ++ (K.intersect cv1 cv2).map (fun p => Object.point_and_mult p (f p))) ∧
    (Intersect_2 K cv1 cv2 oi).length = oi.length + (K.intersect cv1 cv2).length ∧
    (∀ i p, (K.intersect cv1 cv2)[i]? = some p →
      ∃ m, (Intersect_2 K cv1 cv2 oi)[oi.length + i]? = some (Object.point_and_mult p m)) ∧
    (∀ s, Object.curve s ∉ Intersect_2 K cv1 cv2 []) ∧
    (K.intersect cv1 cv2 = [] → Intersect_2 K cv1 cv2 oi = oi) := by
  have hmap : (K.intersect cv1 cv2).map (intersection_object K cv1 cv2) =
      (K.intersect cv1 cv2).map (fun p => Object.point_and_mult p
        (if K.point_is_equal (K.source cv1) p || K.point_is_equal (K.target cv1) p ||
            K.point_is_equal (K.source cv2) p || K.point_is_equal (K.target cv2) p
          then 0 else K.multiplicity_of_intersection cv1 cv2 p)) := by
    apply List.map_congr_left
    intro p _
    unfold intersection_object
    split_ifs <;> rfl
  refine ⟨⟨_, by rw [Intersect_2_of_not_overlap K cv1 cv2 oi h, hmap]⟩, ?_, ?_, ?_, ?_⟩
  · simp [Intersect_2_of_not_overlap K cv1 cv2 oi h]
  · intro i p hp
    rw [Intersect_2_getElem?_of_not_overlap K cv1 cv2 oi i h, hp]
    simp only [Option.map_some', Option.some.injEq]
    unfold intersection_object
    split_ifs
    · exact ⟨0, rfl⟩
    · exact ⟨_, rfl⟩
  · intro s hs
    rw [Intersect_2_of_not_overlap K cv1 cv2 [] h, hmap] at hs
    simp at hs
  · intro hnil
    simp [Intersect_2_of_not_overlap K cv1 cv2 oi h, hnil]

/-- C17 on the parabolic kernel: the arc `x ∈ [-2,2]` of the parabola and the arc
`x ∈ [-2,2]` of the line `y = 1` have the candidates `(-1,1)` and `(1,1)`; two points
with multiplicity are written, in that order. -/
theorem Intersect_2_one_result_per_candidate_witness :
    parabolic.intersect (Parabola_arc.parabola (-2) 2) (Parabola_arc.level 1 (-2) 2) =
      [(-1, 1), (1, 1)] ∧
    Intersect_2 parabolic (Parabola_arc.parabola (-2) 2) (Parabola_arc.level 1 (-2) 2) [] =
      [Object.point_and_mult (-1, 1) 1, Object.point_and_mult (1, 1) 1] ∧
    (Intersect_2 parabolic (Parabola_arc.parabola (-2) 2)
        (Parabola_arc.level 1 (-2) 2) []).length =
      ([] : List (Object Lattice_point Parabola_arc)).length +
        (parabolic.intersect (Parabola_arc.parabola (-2) 2)
          (Parabola_arc.level 1 (-2) 2)).length :=
  ⟨by decide, by decide,
    (Intersect_2_one_result_per_candidate parabolic (Parabola_arc.parabola (-2) 2)
      (Parabola_arc.level 1 (-2) 2) [] (by decide)).2.1⟩

/-- C18: `Make_x_monotone_2` writes, after what the output held, one object for each
candidate segment of `make_sweepable`, in the order of the candidates: the number of
pieces is the number of candidates, and the `i`-th piece is computed from the `i`-th
candidate alone, so two input curves with the same `i`-th candidate give the same
`i`-th piece. -/
theorem Make_x_monotone_2_one_piece_per_candidate
    (K : GAPS Point_2 Segment_2 Input_object_2) (cv : Input_object_2)
    (oi : List (Object Point_2 Segment_2)) :
    Make_x_monotone_2 K cv oi = oi ++ (K.make_sweepable cv).map (sweepable_object K) ∧
    (Make_x_monotone_2 K cv oi).length = oi.length + (K.make_sweepable cv).length ∧
    (∀ i, (Make_x_monotone_2 K cv oi)[oi.length + i]? =
      ((K.make_sweepable cv)[i]?).map (sweepable_object K)) ∧
    (∀ cv' oi' i, (K.make_sweepable cv)[i]? = (K.make_sweepable cv')[i]? →
      (Make_x_monotone_2 K cv oi)[oi.length + i]? =
        (Make_x_monotone_2 K cv' oi')[oi'.length + i]?) := by
  refine ⟨Make_x_monotone_2_eq K cv oi, ?_, Make_x_monotone_2_getElem? K cv oi, ?_⟩
  · simp [Make_x_monotone_2_eq]
  · intro cv' oi' i hi
    rw [Make_x_monotone_2_getElem?, Make_x_monotone_2_getElem?, hi]

/-! ## The overlap range -/

theorem not_less_trans (K : GAPS Point_2 Segment_2 Input_object_2)
    (hord : less_xy_strict_total_order K) (a b c : Point_2)
    (hab : K.less_xy b a = false) (hbc : K.less_xy c b = false) :
    K.less_xy c a = false := by
  obtain ⟨_, htrans, htotal⟩ := hord
  by_contra hca
  have hca' : K.less_xy c a = true := by simpa using hca
  rcases htotal a b with h | h | h
  · rw [htrans c a b hca' h] at hbc
    exact Bool.noConfusion hbc
  · subst h
    rw [hca'] at hbc
    exact Bool.noConfusion hbc
  · rw [h] at hab
    exact Bool.noConfusion hab

theorem less_asymm_of_strict_total_order (K : GAPS Point_2 Segment_2 Input_object_2)
    (hord : less_xy_strict_total_order K) : less_xy_asymmetric K := by
  intro p q hpq
  by_contra hqp
  have hqp' : K.less_xy q p = true := by simpa using hqp
  have hpp := hord.2.1 p q p hpq hqp'
  rw [hord.1 p] at hpp
  exact Bool.noConfusion hpp

theorem not_less_std_max_iff (K : GAPS Point_2 Segment_2 Input_object_2)
    (hord : less_xy_strict_total_order K) (a b p : Point_2) :
    K.less_xy p (std_max K.less_xy a b) = false ↔
      (K.less_xy p a = false ∧ K.less_xy p b = false) := by
  have hup := std_max_upper K.less_xy (less_asymm_of_strict_total_order K hord) a b
  constructor
  · intro h
    exact ⟨not_less_trans K hord a _ p hup.2.1 h, not_less_trans K hord b _ p hup.2.2 h⟩
  · rintro ⟨ha, hb⟩
    rcases hup.1 with h | h <;> rw [h] <;> assumption

theorem not_std_min_less_iff (K : GAPS Point_2 Segment_2 Input_object_2)
    (hord : less_xy_strict_total_order K) (a b p : Point_2) :
    K.less_xy (std_min K.less_xy a b) p = false ↔
      (K.less_xy a p = false ∧ K.less_xy b p = false) := by
  have hlow := std_min_lower K.less_xy (less_asymm_of_strict_total_order K hord) a b
  constructor
  · intro h
    exact ⟨not_less_trans K hord p _ a h hlow.2.1, not_less_trans K hord p _ b h hlow.2.2⟩
  · rintro ⟨ha, hb⟩
    rcases hlow.1 with h | h <;> rw [h] <;> assumption

/-- C19: when `less_xy` is a strict total order, a point `p` lies between the ordered
endpoints of `cv1` and between the ordered endpoints of `cv2` exactly when
`lo <= p <= hi` for `lo = greater_source` and `hi = smaller_target`; and `lo <= hi`
(`hi` is not less than `lo`) as soon as one point lies in both ranges. -/
theorem overlap_range_is_intersection (K : GAPS Point_2 Segment_2 Input_object_2)
    (cv1 cv2 : Segment_2) (hord : less_xy_strict_total_order K) :
    (∀ p, (in_closed_range K (ordered_endpoints K cv1).1 (ordered_endpoints K cv1).2 p = true ∧
          in_closed_range K (ordered_endpoints K cv2).1 (ordered_endpoints K cv2).2 p = true) ↔
        in_closed_range K (greater_source K cv1 cv2) (smaller_target K cv1 cv2) p = true) ∧
    ((∃ p, in_closed_range K (ordered_endpoints K cv1).1 (ordered_endpoints K cv1).2 p = true ∧
          in_closed_range K (ordered_endpoints K cv2).1 (ordered_endpoints K cv2).2 p = true) →
      K.less_xy (smaller_target K cv1 cv2) (greater_source K cv1 cv2) = false) := by
  have key : ∀ p,
      (in_closed_range K (ordered_endpoints K cv1).1 (ordered_endpoints K cv1).2 p = true ∧
        in_closed_range K (ordered_endpoints K cv2).1 (ordered_endpoints K cv2).2 p = true) ↔
      in_closed_range K (greater_source K cv1 cv2) (smaller_target K cv1 cv2) p = true := by
    intro p
    simp only [in_closed_range, greater_source, smaller_target, Bool.and_eq_true,
      Bool.not_eq_true', not_less_std_max_iff K hord, not_std_min_less_iff K hord]
    tauto
  refine ⟨key, ?_⟩
  rintro ⟨p, hp⟩
  have h := (key p).1 hp
  simp only [in_closed_range, Bool.and_eq_true, Bool.not_eq_true'] at h
  exact not_less_trans K hord _ p _ h.1 h.2

theorem rectilinear_less_xy_strict_total_order : less_xy_strict_total_order rectilinear := by
  refine ⟨?_, ?_, ?_⟩
  · intro p
    show lattice_less_xy p p = false
    simp [lattice_less_xy]
  · intro p q r hpq hqr
    have h1 := (lattice_less_xy_iff p q).1 hpq
    have h2 := (lattice_less_xy_iff q r).1 hqr
    exact (lattice_less_xy_iff p r).2 (by omega)
  · intro p q
    by_cases h1 : lattice_less_xy p q = true
    · exact Or.inl h1
    · by_cases h2 : lattice_less_xy q p = true
      · exact Or.inr (Or.inr h2)
      · rw [lattice_less_xy_iff] at h1 h2
        exact Or.inr (Or.inl (Prod.ext (by omega) (by omega)))

/-- C19 on the rectilinear kernel: for the arcs `x ∈ [0,3]` and `x ∈ [2,5]` of the line
`y = 0` the range is from `(2,0)` to `(3,0)`; `(2,0)` lies in both arcs and in the
range, `(1,0)` lies in the first arc only and not in the range. -/
theorem overlap_range_is_intersection_witness :
    greater_source rectilinear (Rect_segment.horizontal 0 0 3) (Rect_segment.horizontal 0 5 2)
      = (2, 0) ∧
    smaller_target rectilinear (Rect_segment.horizontal 0 0 3) (Rect_segment.horizontal 0 5 2)
      = (3, 0) ∧
    in_closed_range rectilinear (2, 0) (3, 0) (2, 0) = true ∧
    in_closed_range rectilinear (2, 0) (3, 0) (1, 0) = false ∧
    rectilinear.less_xy
      (smaller_target rectilinear (Rect_segment.horizontal 0 0 3)
        (Rect_segment.horizontal 0 5 2))
      (greater_source rectilinear (Rect_segment.horizontal 0 0 3)
        (Rect_segment.horizontal 0 5 2)) = false :=
  ⟨by decide, by decide, by decide, by decide,
    (overlap_range_is_intersection rectilinear (Rect_segment.horizontal 0 0 3)
      (Rect_segment.horizontal 0 5 2) rectilinear_less_xy_strict_total_order).2
      ⟨(2, 0), by decide, by decide⟩⟩

theorem ordered_endpoints_of_exchanged (K : GAPS Point_2 Segment_2 Input_object_2)
    (hord : less_xy_strict_total_order K) (cv cv' : Segment_2)
    (hs : K.source cv' = K.target cv) (ht : K.target cv' = K.source cv) :
    ordered_endpoints K cv' = ordered_endpoints K cv := by
  have hasym := less_asymm_of_strict_total_order K hord
  unfold ordered_endpoints
  simp only [hs, ht]
  rcases hord.2.2 (K.source cv) (K.target cv) with h | h | h
  · simp [h, hasym _ _ h]
  · simp [h, hord.1]
  · simp [h, hasym _ _ h]

theorem std_max_comm (K : GAPS Point_2 Segment_2 Input_object_2)
    (hord : less_xy_strict_total_order K) (a b : Point_2) :
    std_max K.less_xy a b = std_max K.less_xy b a := by
  have hasym := less_asymm_of_strict_total_order K hord
  unfold std_max
  rcases hord.2.2 a b with h | h | h
  · simp [h, hasym _ _ h]
  · simp [h]
  · simp [h, hasym _ _ h]

theorem std_min_comm (K : GAPS Point_2 Segment_2 Input_object_2)
    (hord : less_xy_strict_total_order K) (a b : Point_2) :
    std_min K.less_xy a b = std_min K.less_xy b a := by
  have hasym := less_asymm_of_strict_total_order K hord
  unfold std_min
  rcases hord.2.2 a b with h | h | h
  · simp [h, hasym _ _ h]
  · simp [h]
  · simp [h, hasym _ _ h]

/-- C20: when `less_xy` is a strict total order, `greater_source` and `smaller_target`
are unchanged when `cv1` or `cv2` is replaced by an arc with source and target
exchanged, and when the two arguments are exchanged; `Intersect_2 cv1 cv2` writes `cv2`
trimmed to that range and `Intersect_2 cv2 cv1` writes `cv1` trimmed to the same range:
the trimmed arc is the second argument. -/
theorem overlap_range_independent (K : GAPS Point_2 Segment_2 Input_object_2)
    (cv1 cv2 cv1' cv2' : Segment_2) (oi : List (Object Point_2 Segment_2))
    (hord : less_xy_strict_total_order K)
    (h1 : K.source cv1' = K.target cv1 ∧ K.target cv1' = K.source cv1)
    (h2 : K.source cv2' = K.target cv2 ∧ K.target cv2' = K.source cv2) :
    (greater_source K cv1' cv2 = greater_source K cv1 cv2 ∧
      smaller_target K cv1' cv2 = smaller_target K cv1 cv2) ∧
    (greater_source K cv1 cv2' = greater_source K cv1 cv2 ∧
      smaller_target K cv1 cv2' = smaller_target K cv1 cv2) ∧
    (greater_source K cv2 cv1 = greater_source K cv1 cv2 ∧
      smaller_target K cv2 cv1 = smaller_target K cv1 cv2) ∧
    (K.do_overlap cv1 cv2 = true → Intersect_2 K cv1 cv2 oi =
      oi ++ [Object.curve
        (K.trim cv2 (greater_source K cv1 cv2) (smaller_target K cv1 cv2))]) ∧
    (K.do_overlap cv2 cv1 = true → Intersect_2 K cv2 cv1 oi =
      oi ++ [Object.curve
        (K.trim cv1 (greater_source K cv1 cv2) (smaller_target K cv1 cv2))]) := by
  have e1 := ordered_endpoints_of_exchanged K hord cv1 cv1' h1.1 h1.2
  have e2 := ordered_endpoints_of_exchanged K hord cv2 cv2' h2.1 h2.2
  have hlo : greater_source K cv2 cv1 = greater_source K cv1 cv2 := by
    unfold greater_source
    exact std_max_comm K hord _ _
  have hhi : smaller_target K cv2 cv1 = smaller_target K cv1 cv2 := by
    unfold smaller_target
    exact std_min_comm K hord _ _
  refine ⟨⟨?_, ?_⟩, ⟨?_, ?_⟩, ⟨hlo, hhi⟩, ?_, ?_⟩
  · simp [greater_source, e1]
  · simp [smaller_target, e1]
  · simp [greater_source, e2]
  · simp [smaller_target, e2]
  · intro h
    exact Intersect_2_of_overlap K cv1 cv2 oi h
  · intro h
    rw [Intersect_2_of_overlap K cv2 cv1 oi h, hlo, hhi]

/-- C20 on the rectilinear kernel: for the arcs `x ∈ [0,3]` and `x ∈ [2,5]` of the line
`y = 0`, in either direction and in either order, the range is from `(2,0)` to `(3,0)`. -/
theorem overlap_range_independent_witness :
    greater_source rectilinear (Rect_segment.horizontal 0 0 3) (Rect_segment.horizontal 0 2 5)
      = (2, 0) ∧
    smaller_target rectilinear (Rect_segment.horizontal 0 0 3) (Rect_segment.horizontal 0 2 5)
      = (3, 0) ∧
    Intersect_2 rectilinear (Rect_segment.horizontal 0 3 0) (Rect_segment.horizontal 0 5 2) [] =
      [Object.curve (Rect_segment.horizontal 0 2 3)] ∧
    Intersect_2 rectilinear (Rect_segment.horizontal 0 2 5) (Rect_segment.horizontal 0 0 3) [] =
      [Object.curve (Rect_segment.horizontal 0 2 3)] ∧
    (greater_source rectilinear (Rect_segment.horizontal 0 2 5) (Rect_segment.horizontal 0 0 3) =
        greater_source rectilinear (Rect_segment.horizontal 0 0 3)
          (Rect_segment.horizontal 0 2 5) ∧
      smaller_target rectilinear (Rect_segment.horizontal 0 2 5) (Rect_segment.horizontal 0 0 3) =
        smaller_target rectilinear (Rect_segment.horizontal 0 0 3)
          (Rect_segment.horizontal 0 2 5)) :=
  ⟨by decide, by decide, by decide, by decide,
    (overlap_range_independent rectilinear (Rect_segment.horizontal 0 0 3)
      (Rect_segment.horizontal 0 2 5) (Rect_segment.horizontal 0 3 0)
      (Rect_segment.horizontal 0 5 2) [] rectilinear_less_xy_strict_total_order
      ⟨rfl, rfl⟩ ⟨rfl, rfl⟩).2.2.1⟩

end GPA_2_Functors
